import Mathlib

/-!
# Steering control firmware: actuation gate, override detector, fault monitor

A shallow embedding of `firmware/steering/src/steering_control.cpp`.

The firmware works on three pieces of persistent storage: the global
`g_steering_control_state`, the function-local static `fault_count` of
`check_for_sensor_faults`, and the two function-local static accumulators of
`read_torque_sensor`.  They are the fields of `Machine`, together with the
global interrupt-enable flag, the level last written to the spoof-enable pin,
the chronological list of hardware actions performed so far, and a log that
interleaves those actions with the stores to the `enabled` flag in program
order.

Every firmware function becomes a function `Machine → Machine`; values that the
hardware supplies (the two `analogRead` samples) are extra arguments.
`DEBUG_PRINTLN` has no effect on any of this and is left out.
-/

namespace SteeringControl

/-! ## Data model -/

/-- The pins named by `steering_control.cpp`. -/
inductive Pin where
  | PIN_TORQUE_SENSOR_HIGH
  | PIN_TORQUE_SENSOR_LOW
  | PIN_SPOOF_ENABLE
  deriving DecidableEq, Repr

/-- Digital pin levels. -/
inductive Level where
  | LOW
  | HIGH
  deriving DecidableEq, Repr

/-- Hardware actions and calls to external collaborators, in the order the
firmware performs them. -/
inductive Event where
  | cli
  | sei
  | analogRead (pin : Pin)
  | digitalWrite (pin : Pin) (level : Level)
  | outputA (value : Nat)
  | outputB (value : Nat)
  | prevent_signal_discontinuity (num_samples : Nat) (signal_pin_1 signal_pin_2 : Pin)
  | publish_fault_report
  deriving DecidableEq, Repr

/-- An entry of the program-order log: a hardware action, or a store to
`g_steering_control_state.enabled` (lines 150 and 172).  The log makes the
position of the store among the hardware actions of a function observable. -/
inductive Logged where
  | action (e : Event)
  | store_enabled (value : Bool)
  deriving DecidableEq, Repr

/-- Modelled from the spec: the type `steering_control_state_s` is declared in
`steering_control.h`, which is not among the sources.  The spec gives
`ControlState: { enabled: bool, operatorOverride: bool, faultBits: bitset }`;
the field names are the ones `steering_control.cpp` uses.  The bitset is a
natural number read in binary. -/
structure steering_control_state_s where
  enabled : Bool
  operator_override : Bool
  dtcs : Nat
  deriving DecidableEq, Repr

/-- Modelled from the spec: `steering_torque_s` (declared in
`steering_control.h`), the pair `{ high, low }` of 16-bit channel values. -/
structure steering_torque_s where
  high : Nat
  low : Nat
  deriving DecidableEq, Repr

/-- The arithmetic of the C type `float`, taken as a parameter: the carrier
`F`, the three literals the filter uses, the three operations, and the two
conversions between `float` and `uint16_t`. -/
structure FloatArith (F : Type) where
  /-- the literal `0.0` -/
  zero : F
  /-- the literal `1.0` -/
  one : F
  /-- the literal `0.01` -/
  filter_alpha : F
  add : F → F → F
  sub : F → F → F
  mul : F → F → F
  /-- conversion `uint16_t → float` -/
  ofUInt16 : Nat → F
  /-- conversion `float → uint16_t` -/
  toUInt16 : F → Nat

/-- Exact rational arithmetic as an instance of `FloatArith`; the conversion
to `uint16_t` truncates. -/
def ratArith : FloatArith ℚ where
  zero := 0
  one := 1
  filter_alpha := 1 / 100
  add := fun a b => a + b
  sub := fun a b => a - b
  mul := fun a b => a * b
  ofUInt16 := fun n => (n : ℚ)
  toUInt16 := fun x => ⌊x⌋.toNat

/-- Constants that `steering_control.cpp` takes from headers which are not
among the sources (`vehicles/*.h`, `can_protocols/steering_can_protocol.h`). -/
structure Config where
  TORQUE_DIFFERENCE_THRESHOLD : Nat
  STEERING_SPOOF_HIGH_SIGNAL_RANGE_MIN : Nat
  STEERING_SPOOF_HIGH_SIGNAL_RANGE_MAX : Nat
  STEERING_SPOOF_LOW_SIGNAL_RANGE_MIN : Nat
  STEERING_SPOOF_LOW_SIGNAL_RANGE_MAX : Nat
  /-- bit index of the invalid-sensor trouble code -/
  OSCC_STEERING_DTC_INVALID_SENSOR_VAL : Nat
  deriving DecidableEq, Repr

/-- The whole persistent state the firmware functions act on. -/
structure Machine (F : Type) where
  /-- the global `g_steering_control_state` -/
  g_steering_control_state : steering_control_state_s
  /-- `static int fault_count` of `check_for_sensor_faults` -/
  fault_count : Int
  /-- `static float filtered_torque_high` of `read_torque_sensor` -/
  filtered_torque_high : F
  /-- `static float filtered_torque_low` of `read_torque_sensor` -/
  filtered_torque_low : F
  /-- global interrupt-enable flag: `true` when interrupts are enabled -/
  interrupts : Bool
  /-- level last written to `PIN_SPOOF_ENABLE` -/
  spoof_enable : Level
  /-- hardware actions performed so far, oldest first -/
  trace : List Event
  /-- hardware actions and stores to `enabled` performed so far, in program
  order, oldest first -/
  log : List Logged

/-- `SENSOR_VALIDITY_CHECK_FAULT_COUNT` (line 26). -/
def SENSOR_VALIDITY_CHECK_FAULT_COUNT : Int := 4

/-- Width of `int` and of `uint16_t` on the target. -/
def UINT16_MOD : Nat := 65536

/-- A value stored into a `uint16_t`. -/
def to_uint16 (x : Nat) : Nat := x % UINT16_MOD

/-- A value stored into the 16-bit signed `int` of the target, wrapping
modulo `2^16` into `[-32768, 32767]`. -/
def to_int16 (x : Int) : Int := (x + 32768) % 65536 - 32768

/-! ## External collaborators -/

/-- Modelled from the spec: `DTC_CHECK` of `dtc.h` (not among the sources):
whether the fault bit keyed by `dtc` is set in the bitset. -/
def DTC_CHECK (bitfield dtc : Nat) : Bool := (bitfield &&& (1 <<< dtc)) != 0

/-- Modelled from the spec: `DTC_SET` of `dtc.h` (not among the sources):
the bitset with the fault bit keyed by `dtc` set. -/
def DTC_SET (bitfield dtc : Nat) : Nat := bitfield ||| (1 <<< dtc)

/-- Modelled from the spec: `DTC_CLEAR` of `dtc.h` (not among the sources):
the bitset with the fault bit keyed by `dtc` cleared. -/
def DTC_CLEAR (bitfield dtc : Nat) : Nat := bitfield ^^^ (bitfield &&& (1 <<< dtc))

/-- The Arduino `constrain(amt, low, high)`:
`((amt)<(low)?(low):((amt)>(high)?(high):(amt)))`. -/
def constrain (amt low high : Nat) : Nat :=
  if amt < low then low else if amt > high then high else amt

variable {F : Type}

/-- Append one action to the trace and to the log. -/
def emit (m : Machine F) (e : Event) : Machine F :=
  { m with trace := m.trace ++ [e], log := m.log ++ [Logged.action e] }

/-- The assignment `g_steering_control_state.enabled = value`. -/
def store_enabled (m : Machine F) (value : Bool) : Machine F :=
  { m with
    g_steering_control_state := { m.g_steering_control_state with enabled := value },
    log := m.log ++ [Logged.store_enabled value] }

/-- `cli()`: mask interrupts. -/
def cli (m : Machine F) : Machine F :=
  emit { m with interrupts := false } Event.cli

/-- `sei()`: enable interrupts. -/
def sei (m : Machine F) : Machine F :=
  emit { m with interrupts := true } Event.sei

/-- `analogRead( pin )`: the sample itself is an argument of the caller. -/
def analogRead (m : Machine F) (pin : Pin) : Machine F :=
  emit m (Event.analogRead pin)

/-- `digitalWrite( pin, level )`. -/
def digitalWrite (m : Machine F) (pin : Pin) (level : Level) : Machine F :=
  emit { m with spoof_enable := if pin = Pin.PIN_SPOOF_ENABLE then level else m.spoof_enable }
    (Event.digitalWrite pin level)

/-- `g_dac.outputA( value )`. -/
def outputA (m : Machine F) (value : Nat) : Machine F :=
  emit m (Event.outputA value)

/-- `g_dac.outputB( value )`. -/
def outputB (m : Machine F) (value : Nat) : Machine F :=
  emit m (Event.outputB value)

/-- Modelled from the spec: `prevent_signal_discontinuity` is defined in the
DAC library, which is not among the sources.  The spec describes it as
pre-loading the output stage with N samples derived from the current live
sensor reading; it is recorded as one action carrying its arguments. -/
def prevent_signal_discontinuity (m : Machine F) (num_samples : Nat)
    (signal_pin_1 signal_pin_2 : Pin) : Machine F :=
  emit m (Event.prevent_signal_discontinuity num_samples signal_pin_1 signal_pin_2)

/-- Modelled from the spec: `publish_fault_report` is defined in
`communications.cpp`, which is not among the sources; the spec calls it a
fault-report emission call.  It is recorded as one action. -/
def publish_fault_report (m : Machine F) : Machine F :=
  emit m Event.publish_fault_report

/-! ## The functions of `steering_control.cpp` -/

/-- `exponential_moving_average` (lines 178-184). -/
def exponential_moving_average (fl : FloatArith F) (alpha input average : F) : F :=
  fl.add (fl.mul alpha input) (fl.mul (fl.sub fl.one alpha) average)

/-- `read_torque_sensor` (lines 186-212).  `sample_high` and `sample_low` are
the values the two `analogRead` calls return. -/
def read_torque_sensor (fl : FloatArith F) (m : Machine F) (sample_high sample_low : Nat) :
    Machine F × steering_torque_s :=
  let m1 := cli m
  let m2 := analogRead m1 Pin.PIN_TORQUE_SENSOR_HIGH
  let unfiltered_torque_high := to_uint16 (sample_high <<< 2)
  let m3 := analogRead m2 Pin.PIN_TORQUE_SENSOR_LOW
  let unfiltered_torque_low := to_uint16 (sample_low <<< 2)
  let m4 := sei m3
  let filtered_torque_high :=
    exponential_moving_average fl fl.filter_alpha (fl.ofUInt16 unfiltered_torque_high)
      m4.filtered_torque_high
  let filtered_torque_low :=
    exponential_moving_average fl fl.filter_alpha (fl.ofUInt16 unfiltered_torque_low)
      m4.filtered_torque_low
  ({ m4 with filtered_torque_high := filtered_torque_high,
             filtered_torque_low := filtered_torque_low },
   { high := to_uint16 (fl.toUInt16 filtered_torque_high),
     low := to_uint16 (fl.toUInt16 filtered_torque_low) })

/-- `disable_control` (lines 157-176). -/
def disable_control (m : Machine F) : Machine F :=
  if m.g_steering_control_state.enabled = true then
    let num_samples := 20
    let m1 := prevent_signal_discontinuity m num_samples
      Pin.PIN_TORQUE_SENSOR_HIGH Pin.PIN_TORQUE_SENSOR_LOW
    let m2 := cli m1
    let m3 := digitalWrite m2 Pin.PIN_SPOOF_ENABLE Level.LOW
    let m4 := sei m3
    store_enabled m4 false
  else m

/-- `enable_control` (lines 134-154). -/
def enable_control (m : Machine F) : Machine F :=
  if m.g_steering_control_state.enabled = false
      ∧ m.g_steering_control_state.operator_override = false then
    let num_samples := 20
    let m1 := prevent_signal_discontinuity m num_samples
      Pin.PIN_TORQUE_SENSOR_HIGH Pin.PIN_TORQUE_SENSOR_LOW
    let m2 := cli m1
    let m3 := digitalWrite m2 Pin.PIN_SPOOF_ENABLE Level.HIGH
    let m4 := sei m3
    store_enabled m4 true
  else m

/-- `update_steering` (lines 108-131). -/
def update_steering (cfg : Config) (m : Machine F)
    (spoof_command_high spoof_command_low : Nat) : Machine F :=
  if m.g_steering_control_state.enabled = true then
    let spoof_high := to_uint16 (constrain spoof_command_high
      cfg.STEERING_SPOOF_HIGH_SIGNAL_RANGE_MIN cfg.STEERING_SPOOF_HIGH_SIGNAL_RANGE_MAX)
    let spoof_low := to_uint16 (constrain spoof_command_low
      cfg.STEERING_SPOOF_LOW_SIGNAL_RANGE_MIN cfg.STEERING_SPOOF_LOW_SIGNAL_RANGE_MAX)
    let m1 := cli m
    let m2 := outputA m1 spoof_high
    let m3 := outputB m2 spoof_low
    sei m3
  else m

/-- `check_for_operator_override` (lines 37-63).  Both channel values are
below `2^16`, so the conversions to `float` and the subtraction are exact and
`abs(diff) > TORQUE_DIFFERENCE_THRESHOLD` is the comparison over the
integers. -/
def check_for_operator_override (fl : FloatArith F) (cfg : Config) (m : Machine F)
    (sample_high sample_low : Nat) : Machine F :=
  if m.g_steering_control_state.enabled = true
      ∨ m.g_steering_control_state.operator_override = true then
    let sensed := read_torque_sensor fl m sample_high sample_low
    let m1 := sensed.1
    let torque := sensed.2
    let diff : Int := (torque.high : Int) - (torque.low : Int)
    if |diff| > (cfg.TORQUE_DIFFERENCE_THRESHOLD : Int) then
      let m2 := disable_control m1
      let m3 := publish_fault_report m2
      { m3 with g_steering_control_state :=
          { m3.g_steering_control_state with operator_override := true } }
    else
      { m1 with g_steering_control_state :=
          { m1.g_steering_control_state with operator_override := false } }
  else m

/-- `check_for_sensor_faults` (lines 66-105). -/
def check_for_sensor_faults (fl : FloatArith F) (cfg : Config) (m : Machine F)
    (sample_high sample_low : Nat) : Machine F :=
  if m.g_steering_control_state.enabled = true
      ∨ DTC_CHECK m.g_steering_control_state.dtcs
          cfg.OSCC_STEERING_DTC_INVALID_SENSOR_VAL = true then
    let sensed := read_torque_sensor fl m sample_high sample_low
    let m1 := sensed.1
    let torque := sensed.2
    if torque.high = 0 ∨ torque.low = 0 then
      let m2 := { m1 with fault_count := to_int16 (m1.fault_count + 1) }
      if m2.fault_count ≥ SENSOR_VALIDITY_CHECK_FAULT_COUNT then
        let m3 := disable_control m2
        let m4 := publish_fault_report m3
        { m4 with g_steering_control_state :=
            { m4.g_steering_control_state with
              dtcs := DTC_SET m4.g_steering_control_state.dtcs
                cfg.OSCC_STEERING_DTC_INVALID_SENSOR_VAL } }
      else m2
    else
      { m1 with
        g_steering_control_state :=
          { m1.g_steering_control_state with
            dtcs := DTC_CLEAR m1.g_steering_control_state.dtcs
              cfg.OSCC_STEERING_DTC_INVALID_SENSOR_VAL },
        fault_count := 0 }
  else m

/-! ## Observations -/

/-- The value `read_torque_sensor` hands to its caller: the filtered reading
of this cycle. -/
def filtered_reading (fl : FloatArith F) (m : Machine F) (sample_high sample_low : Nat) :
    steering_torque_s :=
  (read_torque_sensor fl m sample_high sample_low).2

/-- The condition of lines 78-79: `(torque.high == 0) || (torque.low == 0)`. -/
def zero_channel (torque : steering_torque_s) : Prop :=
  torque.high = 0 ∨ torque.low = 0

instance (torque : steering_torque_s) : Decidable (zero_channel torque) := by
  unfold zero_channel
  exact inferInstance

/-- Number of fault reports emitted so far. -/
def fault_reports (m : Machine F) : Nat :=
  m.trace.count Event.publish_fault_report

/-- Consecutive cycles of `check_for_sensor_faults`, one per pair of samples,
first pair first. -/
def sensor_fault_cycles (fl : FloatArith F) (cfg : Config) (m : Machine F) :
    List (Nat × Nat) → Machine F
  | [] => m
  | (sample_high, sample_low) :: rest =>
      sensor_fault_cycles fl cfg (check_for_sensor_faults fl cfg m sample_high sample_low) rest

/-- The state at process start: control disabled, no flags, counter zero,
accumulators `0.0`, interrupts enabled, spoof-enable line low, nothing done
yet. -/
def initial (fl : FloatArith F) : Machine F where
  g_steering_control_state := { enabled := false, operator_override := false, dtcs := 0 }
  fault_count := 0
  filtered_torque_high := fl.zero
  filtered_torque_low := fl.zero
  interrupts := true
  spoof_enable := Level.LOW
  trace := []
  log := []

/-! ## Executions -/

/-- One call of one of the five operations of `steering_control.cpp`, with the
arguments of the call and, for the two checks, the samples the two
`analogRead` calls would return. -/
inductive Op where
  | enable_control
  | disable_control
  | update_steering (spoof_command_high spoof_command_low : Nat)
  | check_for_operator_override (sample_high sample_low : Nat)
  | check_for_sensor_faults (sample_high sample_low : Nat)
  deriving DecidableEq, Repr

/-- The effect of one call. -/
def step (fl : FloatArith F) (cfg : Config) (m : Machine F) : Op → Machine F
  | Op.enable_control => enable_control m
  | Op.disable_control => disable_control m
  | Op.update_steering h l => update_steering cfg m h l
  | Op.check_for_operator_override a b => check_for_operator_override fl cfg m a b
  | Op.check_for_sensor_faults a b => check_for_sensor_faults fl cfg m a b

/-- The effect of a sequence of calls, first call first. -/
def run (fl : FloatArith F) (cfg : Config) (m : Machine F) (ops : List Op) : Machine F :=
  ops.foldl (step fl cfg) m

/-- What a call contributes to the history of the fault monitor: a call of
`check_for_sensor_faults` contributes the filtered reading it takes, or `none`
when its guard (lines 68-69) is false and no reading is taken; other calls
contribute nothing. -/
def monitor_observation (fl : FloatArith F) (cfg : Config) (m : Machine F) :
    Op → List (Option steering_torque_s)
  | Op.check_for_sensor_faults a b =>
      if m.g_steering_control_state.enabled = true
          ∨ DTC_CHECK m.g_steering_control_state.dtcs
              cfg.OSCC_STEERING_DTC_INVALID_SENSOR_VAL = true then
        [some (filtered_reading fl m a b)]
      else [none]
  | _ => []

/-- The history of the fault monitor over a sequence of calls: one entry per
call of `check_for_sensor_faults`, oldest first. -/
def monitor_history (fl : FloatArith F) (cfg : Config) :
    Machine F → List Op → List (Option steering_torque_s)
  | _, [] => []
  | m, op :: rest =>
      monitor_observation fl cfg m op ++ monitor_history fl cfg (step fl cfg m op) rest

/-- The readings the fault monitor actually took, most recent first. -/
def readings_taken (fl : FloatArith F) (cfg : Config) (m : Machine F) (ops : List Op) :
    List steering_torque_s :=
  ((monitor_history fl cfg m ops).filterMap id).reverse

/-- Length of the run of readings with a zero channel at the head of a list. -/
def zero_run : List steering_torque_s → Nat
  | [] => 0
  | torque :: rest => if zero_channel torque then zero_run rest + 1 else 0

/-- The accumulator after `n` filter steps on the constant input `input`,
starting from `average`: `n` applications of the assignment of lines 200-203. -/
def filter_cycles (fl : FloatArith F) (input average : F) : Nat → F
  | 0 => average
  | n + 1 => exponential_moving_average fl fl.filter_alpha input (filter_cycles fl input average n)

/-- The hardware accesses that the critical sections protect: analog reads,
writes to a digital pin and writes to the two DAC channels. -/
def Event.is_access : Event → Bool
  | Event.analogRead _ => true
  | Event.digitalWrite _ _ => true
  | Event.outputA _ => true
  | Event.outputB _ => true
  | _ => false

/-- One step of the scan of a trace for unmasked accesses.  The state is
`some masked` while no unmasked access has been seen and `none` afterwards. -/
def mask_step (state : Option Bool) (e : Event) : Option Bool :=
  match state with
  | none => none
  | some masked =>
      match e with
      | Event.cli => some true
      | Event.sei => some false
      | _ => if e.is_access && !masked then none else some masked

/-- Scan of a trace, starting masked or not: `some masked` gives the mask
state at the end when every access happened between a `cli` and the next
`sei`; `none` means some access happened unmasked. -/
def mask_scan (masked : Bool) (events : List Event) : Option Bool :=
  events.foldl mask_step (some masked)

/-- Every access performed so far happened between a `cli` and the next `sei`
(scanning the trace from an unmasked start ends unmasked), and interrupts are
enabled now. -/
def well_masked (m : Machine F) : Prop :=
  mask_scan false m.trace = some false ∧ m.interrupts = true

/-- The hardware actions of a log, in order, with the stores left out. -/
def logged_actions (entries : List Logged) : List Event :=
  entries.filterMap fun entry =>
    match entry with
    | Logged.action e => some e
    | Logged.store_enabled _ => none

/-! ## Concrete machines used to instantiate the theorems -/

/-- Control disabled with the operator-override flag up. -/
def overridden_machine : Machine ℚ :=
  { initial ratArith with
    g_steering_control_state := { enabled := false, operator_override := true, dtcs := 0 } }

/-- Control enabled, no flags, both accumulators at zero. -/
def enabled_machine : Machine ℚ :=
  { initial ratArith with
    g_steering_control_state := { enabled := true, operator_override := false, dtcs := 0 },
    spoof_enable := Level.HIGH }

/-- Control enabled, no flags, the accumulators at `2000` and `100`: with the
samples `500` and `25` (`2000` and `100` after the shift) the exact filter
returns the reading `(2000, 100)`. -/
def forced_machine : Machine ℚ :=
  { enabled_machine with filtered_torque_high := 2000, filtered_torque_low := 100 }

/-- Control enabled, no flags, the accumulators at `1000` and `94000/99`: with
both samples `250` (`1000` after the shift) the exact filter returns the
reading `(1000, 950)`, since `1000/100 + (99/100) * (94000/99) = 950`. -/
def steady_machine : Machine ℚ :=
  { enabled_machine with filtered_torque_high := 1000, filtered_torque_low := 94000 / 99 }

/-- A configuration with the channel ranges `[1000, 3000]` and `[500, 2500]`,
threshold `1600` and the invalid-sensor code at bit `0`. -/
def sample_config : Config where
  TORQUE_DIFFERENCE_THRESHOLD := 1600
  STEERING_SPOOF_HIGH_SIGNAL_RANGE_MIN := 1000
  STEERING_SPOOF_HIGH_SIGNAL_RANGE_MAX := 3000
  STEERING_SPOOF_LOW_SIGNAL_RANGE_MIN := 500
  STEERING_SPOOF_LOW_SIGNAL_RANGE_MAX := 2500
  OSCC_STEERING_DTC_INVALID_SENSOR_VAL := 0

/-- The state reached from process start by `enable_control` followed by four
cycles of `check_for_sensor_faults` with both samples zero: control disabled,
invalid-sensor bit latched, `operator_override` false. -/
def latched_machine : Machine ℚ :=
  sensor_fault_cycles ratArith sample_config (enable_control (initial ratArith))
    [(0, 0), (0, 0), (0, 0), (0, 0)]

/-- The configuration `sample_config` with the override threshold at zero. -/
def sensitive_config : Config :=
  { sample_config with TORQUE_DIFFERENCE_THRESHOLD := 0 }

/-- Control enabled, no flags, the accumulators at `100` and `2000`: with the
samples `25` and `500` the exact filter returns the reading `(100, 2000)`. -/
def swapped_machine : Machine ℚ :=
  { enabled_machine with filtered_torque_high := 100, filtered_torque_low := 2000 }

/-- Process start, but entered with interrupts already masked. -/
def masked_machine : Machine ℚ :=
  { initial ratArith with interrupts := false }

/-- An execution from process start: control is enabled, the monitor sees three
zero readings, control is disabled from outside, the monitor is called once
more while its guard is false (the samples `25, 25` would have given the
reading `(1, 1)`), and control is enabled again. -/
def stale_counter_ops : List Op :=
  [Op.enable_control,
   Op.check_for_sensor_faults 0 0,
   Op.check_for_sensor_faults 0 0,
   Op.check_for_sensor_faults 0 0,
   Op.disable_control,
   Op.check_for_sensor_faults 25 25,
   Op.enable_control]

/-- An execution from process start: control is enabled and the monitor then
sees 32768 consecutive zero readings (both samples zero, accumulators at
zero). -/
def overflow_ops : List Op :=
  Op.enable_control :: List.replicate 32768 (Op.check_for_sensor_faults 0 0)

/-- An execution from process start: control is enabled, the monitor sees 32767
consecutive zero readings, and control is enabled again. -/
def saturated_ops : List Op :=
  Op.enable_control :: List.replicate 32767 (Op.check_for_sensor_faults 0 0)
    ++ [Op.enable_control]

/-! ## Basic facts about the primitive actions -/

@[simp] theorem emit_trace (m : Machine F) (e : Event) : (emit m e).trace = m.trace ++ [e] := rfl

@[simp] theorem emit_state (m : Machine F) (e : Event) :
    (emit m e).g_steering_control_state = m.g_steering_control_state := rfl

@[simp] theorem emit_fault_count (m : Machine F) (e : Event) :
    (emit m e).fault_count = m.fault_count := rfl

@[simp] theorem emit_interrupts (m : Machine F) (e : Event) :
    (emit m e).interrupts = m.interrupts := rfl

@[simp] theorem emit_spoof_enable (m : Machine F) (e : Event) :
    (emit m e).spoof_enable = m.spoof_enable := rfl

@[simp] theorem emit_log (m : Machine F) (e : Event) :
    (emit m e).log = m.log ++ [Logged.action e] := rfl

@[simp] theorem emit_filtered_torque_high (m : Machine F) (e : Event) :
    (emit m e).filtered_torque_high = m.filtered_torque_high := rfl

@[simp] theorem emit_filtered_torque_low (m : Machine F) (e : Event) :
    (emit m e).filtered_torque_low = m.filtered_torque_low := rfl

@[simp] theorem store_enabled_state (m : Machine F) (value : Bool) :
    (store_enabled m value).g_steering_control_state
      = { m.g_steering_control_state with enabled := value } := rfl

@[simp] theorem store_enabled_trace (m : Machine F) (value : Bool) :
    (store_enabled m value).trace = m.trace := rfl

@[simp] theorem store_enabled_log (m : Machine F) (value : Bool) :
    (store_enabled m value).log = m.log ++ [Logged.store_enabled value] := rfl

@[simp] theorem store_enabled_fault_count (m : Machine F) (value : Bool) :
    (store_enabled m value).fault_count = m.fault_count := rfl

@[simp] theorem store_enabled_interrupts (m : Machine F) (value : Bool) :
    (store_enabled m value).interrupts = m.interrupts := rfl

@[simp] theorem store_enabled_spoof_enable (m : Machine F) (value : Bool) :
    (store_enabled m value).spoof_enable = m.spoof_enable := rfl

@[simp] theorem store_enabled_filtered_torque_high (m : Machine F) (value : Bool) :
    (store_enabled m value).filtered_torque_high = m.filtered_torque_high := rfl

@[simp] theorem store_enabled_filtered_torque_low (m : Machine F) (value : Bool) :
    (store_enabled m value).filtered_torque_low = m.filtered_torque_low := rfl

theorem constrain_eq_min_max (amt low high : Nat) (h : low ≤ high) :
    constrain amt low high = min (max amt low) high := by
  unfold constrain
  split_ifs with h1 h2 <;> omega

/-! ## The actuation gate and the command writer -/

/-- C1: in every control state with `operator_override` true, whatever
`enabled` and the fault bits are, `enable_control` returns the machine it was
given: the control state is unchanged and no action (no pre-load, no write to
the spoof-enable line) is added to the trace. -/
theorem enable_control_override_noop (m : Machine F)
    (h : m.g_steering_control_state.operator_override = true) :
    enable_control m = m := by
  simp [enable_control, h]

theorem enable_control_override_noop_witness :
    overridden_machine.g_steering_control_state.operator_override = true
      ∧ enable_control overridden_machine = overridden_machine :=
  ⟨rfl, enable_control_override_noop overridden_machine rfl⟩

/-- C2: after `disable_control` the enabled flag is false; a second call
returns the machine the first call produced (same final state, nothing added
to the trace); and the first call adds the pre-load and the enable-line
deassertion exactly once when control was enabled and nothing otherwise. -/
theorem disable_control_idempotent (m : Machine F) :
    (disable_control m).g_steering_control_state.enabled = false
      ∧ disable_control (disable_control m) = disable_control m
      ∧ (disable_control (disable_control m)).trace = (disable_control m).trace
      ∧ (disable_control (disable_control m)).trace
          = m.trace ++
            (if m.g_steering_control_state.enabled = true then
              [Event.prevent_signal_discontinuity 20
                 Pin.PIN_TORQUE_SENSOR_HIGH Pin.PIN_TORQUE_SENSOR_LOW,
               Event.cli,
               Event.digitalWrite Pin.PIN_SPOOF_ENABLE Level.LOW,
               Event.sei]
             else []) := by
  by_cases h : m.g_steering_control_state.enabled = true
  · simp [disable_control, h, prevent_signal_discontinuity, cli, sei, digitalWrite]
  · simp [disable_control, h]

/-- C3: with control enabled, 16-bit inputs and channel ranges with
`MIN ≤ MAX` (the lower bounds being 16-bit values), `update_steering h l`
performs exactly `cli, outputA a, outputB b, sei` with
`a = min (max h HIGH_MIN) HIGH_MAX` and `b = min (max l LOW_MIN) LOW_MAX`;
each committed value lies in its range, equals the input when the input is in
range and equals the nearest bound otherwise. -/
theorem update_steering_clamps (cfg : Config) (m : Machine F) (h l : Nat)
    (hen : m.g_steering_control_state.enabled = true)
    (hh : h < 65536) (hl : l < 65536)
    (hH : cfg.STEERING_SPOOF_HIGH_SIGNAL_RANGE_MIN ≤ cfg.STEERING_SPOOF_HIGH_SIGNAL_RANGE_MAX)
    (hL : cfg.STEERING_SPOOF_LOW_SIGNAL_RANGE_MIN ≤ cfg.STEERING_SPOOF_LOW_SIGNAL_RANGE_MAX)
    (hH16 : cfg.STEERING_SPOOF_HIGH_SIGNAL_RANGE_MIN < 65536)
    (hL16 : cfg.STEERING_SPOOF_LOW_SIGNAL_RANGE_MIN < 65536) :
    (update_steering cfg m h l).trace
        = m.trace ++
          [Event.cli,
           Event.outputA (min (max h cfg.STEERING_SPOOF_HIGH_SIGNAL_RANGE_MIN)
             cfg.STEERING_SPOOF_HIGH_SIGNAL_RANGE_MAX),
           Event.outputB (min (max l cfg.STEERING_SPOOF_LOW_SIGNAL_RANGE_MIN)
             cfg.STEERING_SPOOF_LOW_SIGNAL_RANGE_MAX),
           Event.sei]
      ∧ (cfg.STEERING_SPOOF_HIGH_SIGNAL_RANGE_MIN
            ≤ min (max h cfg.STEERING_SPOOF_HIGH_SIGNAL_RANGE_MIN)
                cfg.STEERING_SPOOF_HIGH_SIGNAL_RANGE_MAX
          ∧ min (max h cfg.STEERING_SPOOF_HIGH_SIGNAL_RANGE_MIN)
                cfg.STEERING_SPOOF_HIGH_SIGNAL_RANGE_MAX
            ≤ cfg.STEERING_SPOOF_HIGH_SIGNAL_RANGE_MAX)
      ∧ (cfg.STEERING_SPOOF_LOW_SIGNAL_RANGE_MIN
            ≤ min (max l cfg.STEERING_SPOOF_LOW_SIGNAL_RANGE_MIN)
                cfg.STEERING_SPOOF_LOW_SIGNAL_RANGE_MAX
          ∧ min (max l cfg.STEERING_SPOOF_LOW_SIGNAL_RANGE_MIN)
                cfg.STEERING_SPOOF_LOW_SIGNAL_RANGE_MAX
            ≤ cfg.STEERING_SPOOF_LOW_SIGNAL_RANGE_MAX)
      ∧ (cfg.STEERING_SPOOF_HIGH_SIGNAL_RANGE_MIN ≤ h
          → h ≤ cfg.STEERING_SPOOF_HIGH_SIGNAL_RANGE_MAX
          → min (max h cfg.STEERING_SPOOF_HIGH_SIGNAL_RANGE_MIN)
              cfg.STEERING_SPOOF_HIGH_SIGNAL_RANGE_MAX = h)
      ∧ (h < cfg.STEERING_SPOOF_HIGH_SIGNAL_RANGE_MIN
          → min (max h cfg.STEERING_SPOOF_HIGH_SIGNAL_RANGE_MIN)
              cfg.STEERING_SPOOF_HIGH_SIGNAL_RANGE_MAX
            = cfg.STEERING_SPOOF_HIGH_SIGNAL_RANGE_MIN)
      ∧ (cfg.STEERING_SPOOF_HIGH_SIGNAL_RANGE_MAX < h
          → min (max h cfg.STEERING_SPOOF_HIGH_SIGNAL_RANGE_MIN)
              cfg.STEERING_SPOOF_HIGH_SIGNAL_RANGE_MAX
            = cfg.STEERING_SPOOF_HIGH_SIGNAL_RANGE_MAX)
      ∧ (cfg.STEERING_SPOOF_LOW_SIGNAL_RANGE_MIN ≤ l
          → l ≤ cfg.STEERING_SPOOF_LOW_SIGNAL_RANGE_MAX
          → min (max l cfg.STEERING_SPOOF_LOW_SIGNAL_RANGE_MIN)
              cfg.STEERING_SPOOF_LOW_SIGNAL_RANGE_MAX = l)
      ∧ (l < cfg.STEERING_SPOOF_LOW_SIGNAL_RANGE_MIN
          → min (max l cfg.STEERING_SPOOF_LOW_SIGNAL_RANGE_MIN)
              cfg.STEERING_SPOOF_LOW_SIGNAL_RANGE_MAX
            = cfg.STEERING_SPOOF_LOW_SIGNAL_RANGE_MIN)
      ∧ (cfg.STEERING_SPOOF_LOW_SIGNAL_RANGE_MAX < l
          → min (max l cfg.STEERING_SPOOF_LOW_SIGNAL_RANGE_MIN)
              cfg.STEERING_SPOOF_LOW_SIGNAL_RANGE_MAX
            = cfg.STEERING_SPOOF_LOW_SIGNAL_RANGE_MAX) := by
  have ea : to_uint16 (constrain h cfg.STEERING_SPOOF_HIGH_SIGNAL_RANGE_MIN
      cfg.STEERING_SPOOF_HIGH_SIGNAL_RANGE_MAX)
      = min (max h cfg.STEERING_SPOOF_HIGH_SIGNAL_RANGE_MIN)
          cfg.STEERING_SPOOF_HIGH_SIGNAL_RANGE_MAX := by
    rw [constrain_eq_min_max _ _ _ hH]
    simp only [to_uint16, UINT16_MOD]
    exact Nat.mod_eq_of_lt (by omega)
  have eb : to_uint16 (constrain l cfg.STEERING_SPOOF_LOW_SIGNAL_RANGE_MIN
      cfg.STEERING_SPOOF_LOW_SIGNAL_RANGE_MAX)
      = min (max l cfg.STEERING_SPOOF_LOW_SIGNAL_RANGE_MIN)
          cfg.STEERING_SPOOF_LOW_SIGNAL_RANGE_MAX := by
    rw [constrain_eq_min_max _ _ _ hL]
    simp only [to_uint16, UINT16_MOD]
    exact Nat.mod_eq_of_lt (by omega)
  refine ⟨?_, ⟨?_, ?_⟩, ⟨?_, ?_⟩, ?_, ?_, ?_, ?_, ?_, ?_⟩
  · simp [update_steering, hen, ea, eb, cli, sei, outputA, outputB]
  all_goals omega

theorem update_steering_clamps_witness :
    (update_steering sample_config enabled_machine 4000 100).trace
      = [Event.cli, Event.outputA 3000, Event.outputB 500, Event.sei] :=
  (update_steering_clamps sample_config enabled_machine 4000 100 rfl
    (by decide) (by decide) (by decide) (by decide) (by decide) (by decide)).1

/-- C4: with the enabled flag false, `update_steering h l` returns the machine
it was given, for every pair of inputs: no DAC write, no `cli`/`sei`, control
state unchanged. -/
theorem update_steering_disabled_noop (cfg : Config) (m : Machine F) (h l : Nat)
    (hdis : m.g_steering_control_state.enabled = false) :
    update_steering cfg m h l = m := by
  simp [update_steering, hdis]

theorem update_steering_disabled_noop_witness :
    (initial ratArith).g_steering_control_state.enabled = false
      ∧ update_steering sample_config (initial ratArith) 4000 100 = initial ratArith :=
  ⟨rfl, update_steering_disabled_noop sample_config (initial ratArith) 4000 100 rfl⟩

/-! ## Facts about the fault bits and the sensor read -/

theorem DTC_CHECK_eq_testBit (bitfield dtc : Nat) :
    DTC_CHECK bitfield dtc = bitfield.testBit dtc := by
  unfold DTC_CHECK
  rw [Nat.one_shiftLeft, Nat.and_two_pow]
  cases h : bitfield.testBit dtc <;> simp

theorem DTC_CHECK_SET_same (bitfield dtc : Nat) :
    DTC_CHECK (DTC_SET bitfield dtc) dtc = true := by
  rw [DTC_CHECK_eq_testBit]
  simp [DTC_SET, Nat.testBit_or, Nat.one_shiftLeft, Nat.testBit_two_pow]

theorem DTC_CHECK_SET_other (bitfield dtc k : Nat) (h : k ≠ dtc) :
    DTC_CHECK (DTC_SET bitfield dtc) k = DTC_CHECK bitfield k := by
  rw [DTC_CHECK_eq_testBit, DTC_CHECK_eq_testBit]
  simp [DTC_SET, Nat.testBit_or, Nat.one_shiftLeft, Nat.testBit_two_pow, Ne.symm h]

theorem DTC_CHECK_CLEAR_same (bitfield dtc : Nat) :
    DTC_CHECK (DTC_CLEAR bitfield dtc) dtc = false := by
  rw [DTC_CHECK_eq_testBit]
  simp [DTC_CLEAR, Nat.testBit_xor, Nat.testBit_and, Nat.one_shiftLeft, Nat.testBit_two_pow]

theorem DTC_CHECK_CLEAR_other (bitfield dtc k : Nat) (h : k ≠ dtc) :
    DTC_CHECK (DTC_CLEAR bitfield dtc) k = DTC_CHECK bitfield k := by
  rw [DTC_CHECK_eq_testBit, DTC_CHECK_eq_testBit]
  simp [DTC_CLEAR, Nat.testBit_xor, Nat.testBit_and, Nat.one_shiftLeft, Nat.testBit_two_pow,
    Ne.symm h]

@[simp] theorem read_torque_sensor_state (fl : FloatArith F) (m : Machine F) (a b : Nat) :
    (read_torque_sensor fl m a b).1.g_steering_control_state = m.g_steering_control_state := rfl

@[simp] theorem read_torque_sensor_fault_count (fl : FloatArith F) (m : Machine F) (a b : Nat) :
    (read_torque_sensor fl m a b).1.fault_count = m.fault_count := rfl

@[simp] theorem read_torque_sensor_spoof_enable (fl : FloatArith F) (m : Machine F)
    (a b : Nat) : (read_torque_sensor fl m a b).1.spoof_enable = m.spoof_enable := rfl

theorem read_torque_sensor_trace (fl : FloatArith F) (m : Machine F) (a b : Nat) :
    (read_torque_sensor fl m a b).1.trace
      = m.trace ++ [Event.cli, Event.analogRead Pin.PIN_TORQUE_SENSOR_HIGH,
          Event.analogRead Pin.PIN_TORQUE_SENSOR_LOW, Event.sei] := by
  simp [read_torque_sensor, cli, sei, analogRead]

@[simp] theorem read_torque_sensor_fault_reports (fl : FloatArith F) (m : Machine F)
    (a b : Nat) : fault_reports (read_torque_sensor fl m a b).1 = fault_reports m := by
  simp [fault_reports, read_torque_sensor_trace]

@[simp] theorem disable_control_enabled (m : Machine F) :
    (disable_control m).g_steering_control_state.enabled = false := by
  by_cases h : m.g_steering_control_state.enabled = true
  · simp [disable_control, h]
  · simp [disable_control, h]

@[simp] theorem disable_control_operator_override (m : Machine F) :
    (disable_control m).g_steering_control_state.operator_override
      = m.g_steering_control_state.operator_override := by
  by_cases h : m.g_steering_control_state.enabled = true
  · simp [disable_control, h, sei, cli, digitalWrite, prevent_signal_discontinuity]
  · simp [disable_control, h]

@[simp] theorem disable_control_dtcs (m : Machine F) :
    (disable_control m).g_steering_control_state.dtcs = m.g_steering_control_state.dtcs := by
  by_cases h : m.g_steering_control_state.enabled = true
  · simp [disable_control, h, sei, cli, digitalWrite, prevent_signal_discontinuity]
  · simp [disable_control, h]

@[simp] theorem disable_control_fault_count (m : Machine F) :
    (disable_control m).fault_count = m.fault_count := by
  by_cases h : m.g_steering_control_state.enabled = true
  · simp [disable_control, h, sei, cli, digitalWrite, prevent_signal_discontinuity]
  · simp [disable_control, h]

@[simp] theorem disable_control_fault_reports (m : Machine F) :
    fault_reports (disable_control m) = fault_reports m := by
  by_cases h : m.g_steering_control_state.enabled = true
  · simp [fault_reports, disable_control, h, sei, cli, digitalWrite,
      prevent_signal_discontinuity]
  · simp [disable_control, h]

/-- One cycle of the fault monitor on a reading with a zero channel, gate
open: the counter is incremented; at the threshold control is disabled, one
report is emitted and the bit is set; below it nothing else changes. -/
theorem check_for_sensor_faults_zero (fl : FloatArith F) (cfg : Config) (m : Machine F)
    (a b : Nat)
    (hrun : m.g_steering_control_state.enabled = true
      ∨ DTC_CHECK m.g_steering_control_state.dtcs
          cfg.OSCC_STEERING_DTC_INVALID_SENSOR_VAL = true)
    (hz : zero_channel (filtered_reading fl m a b)) :
    (check_for_sensor_faults fl cfg m a b).fault_count = to_int16 (m.fault_count + 1)
      ∧ (to_int16 (m.fault_count + 1) < 4 →
          (check_for_sensor_faults fl cfg m a b).g_steering_control_state
              = m.g_steering_control_state
            ∧ fault_reports (check_for_sensor_faults fl cfg m a b) = fault_reports m)
      ∧ (4 ≤ to_int16 (m.fault_count + 1) →
          (check_for_sensor_faults fl cfg m a b).g_steering_control_state.enabled = false
            ∧ DTC_CHECK (check_for_sensor_faults fl cfg m a b).g_steering_control_state.dtcs
                cfg.OSCC_STEERING_DTC_INVALID_SENSOR_VAL = true
            ∧ fault_reports (check_for_sensor_faults fl cfg m a b) = fault_reports m + 1) := by
  have hz' : (read_torque_sensor fl m a b).2.high = 0
      ∨ (read_torque_sensor fl m a b).2.low = 0 := hz
  unfold check_for_sensor_faults
  rw [if_pos hrun]
  simp only [hz', if_true]
  by_cases hc : to_int16 (m.fault_count + 1) ≥ SENSOR_VALIDITY_CHECK_FAULT_COUNT
  · have hc4 : 4 ≤ to_int16 (m.fault_count + 1) := hc
    simp only [read_torque_sensor_fault_count, hc, if_true]
    refine ⟨by simp [publish_fault_report], fun hlt => absurd hc4 (by omega), fun _ => ?_⟩
    refine ⟨by simp [publish_fault_report], DTC_CHECK_SET_same _ _, ?_⟩
    have : fault_reports (publish_fault_report (disable_control
        { (read_torque_sensor fl m a b).1 with fault_count := to_int16 (m.fault_count + 1) }))
        = fault_reports m + 1 := by
      have h1 := disable_control_fault_reports
        { (read_torque_sensor fl m a b).1 with fault_count := to_int16 (m.fault_count + 1) }
      have h2 : fault_reports
          { (read_torque_sensor fl m a b).1 with fault_count := to_int16 (m.fault_count + 1) }
          = fault_reports m := read_torque_sensor_fault_reports fl m a b
      simp only [fault_reports, publish_fault_report, emit_trace] at h1 h2 ⊢
      rw [List.count_append, h1, h2]
      simp
    exact this
  · have hc4 : to_int16 (m.fault_count + 1) < 4 := by
      simpa [SENSOR_VALIDITY_CHECK_FAULT_COUNT] using hc
    simp only [read_torque_sensor_fault_count, hc, if_false]
    refine ⟨trivial, fun _ => ⟨rfl, ?_⟩, fun h4 => absurd h4 (by omega)⟩
    exact read_torque_sensor_fault_reports fl m a b

/-- One cycle of the fault monitor on a reading with both channels nonzero,
gate open. -/
theorem check_for_sensor_faults_valid (fl : FloatArith F) (cfg : Config) (m : Machine F)
    (a b : Nat)
    (hrun : m.g_steering_control_state.enabled = true
      ∨ DTC_CHECK m.g_steering_control_state.dtcs
          cfg.OSCC_STEERING_DTC_INVALID_SENSOR_VAL = true)
    (hv : ¬ zero_channel (filtered_reading fl m a b)) :
    check_for_sensor_faults fl cfg m a b
      = { (read_torque_sensor fl m a b).1 with
          g_steering_control_state :=
            { m.g_steering_control_state with
              dtcs := DTC_CLEAR m.g_steering_control_state.dtcs
                cfg.OSCC_STEERING_DTC_INVALID_SENSOR_VAL },
          fault_count := 0 } := by
  have hv' : ¬ ((read_torque_sensor fl m a b).2.high = 0
      ∨ (read_torque_sensor fl m a b).2.low = 0) := hv
  unfold check_for_sensor_faults
  rw [if_pos hrun]
  simp only [hv', if_false]
  rfl

/-! ## The fault monitor -/

/-- C5: from control enabled, invalid-sensor bit clear and counter zero, four
consecutive cycles of `check_for_sensor_faults` whose filtered reading has a
zero channel: after each of the first three, control is still enabled, the
bit is still clear and no fault report has been emitted; after the fourth,
control is disabled, one fault report has been emitted and the bit is set. -/
theorem sensor_fault_debounce (fl : FloatArith F) (cfg : Config) (m : Machine F)
    (a1 b1 a2 b2 a3 b3 a4 b4 : Nat)
    (hen : m.g_steering_control_state.enabled = true)
    (hdtc : DTC_CHECK m.g_steering_control_state.dtcs
      cfg.OSCC_STEERING_DTC_INVALID_SENSOR_VAL = false)
    (hcnt : m.fault_count = 0)
    (hz1 : zero_channel (filtered_reading fl m a1 b1))
    (hz2 : zero_channel
      (filtered_reading fl (sensor_fault_cycles fl cfg m [(a1, b1)]) a2 b2))
    (hz3 : zero_channel
      (filtered_reading fl (sensor_fault_cycles fl cfg m [(a1, b1), (a2, b2)]) a3 b3))
    (hz4 : zero_channel
      (filtered_reading fl (sensor_fault_cycles fl cfg m [(a1, b1), (a2, b2), (a3, b3)])
        a4 b4)) :
    ((sensor_fault_cycles fl cfg m [(a1, b1)]).g_steering_control_state.enabled = true
        ∧ DTC_CHECK (sensor_fault_cycles fl cfg m [(a1, b1)]).g_steering_control_state.dtcs
            cfg.OSCC_STEERING_DTC_INVALID_SENSOR_VAL = false
        ∧ fault_reports (sensor_fault_cycles fl cfg m [(a1, b1)]) = fault_reports m)
      ∧ ((sensor_fault_cycles fl cfg m
              [(a1, b1), (a2, b2)]).g_steering_control_state.enabled = true
        ∧ DTC_CHECK (sensor_fault_cycles fl cfg m
              [(a1, b1), (a2, b2)]).g_steering_control_state.dtcs
            cfg.OSCC_STEERING_DTC_INVALID_SENSOR_VAL = false
        ∧ fault_reports (sensor_fault_cycles fl cfg m [(a1, b1), (a2, b2)])
            = fault_reports m)
      ∧ ((sensor_fault_cycles fl cfg m
              [(a1, b1), (a2, b2), (a3, b3)]).g_steering_control_state.enabled = true
        ∧ DTC_CHECK (sensor_fault_cycles fl cfg m
              [(a1, b1), (a2, b2), (a3, b3)]).g_steering_control_state.dtcs
            cfg.OSCC_STEERING_DTC_INVALID_SENSOR_VAL = false
        ∧ fault_reports (sensor_fault_cycles fl cfg m [(a1, b1), (a2, b2), (a3, b3)])
            = fault_reports m)
      ∧ ((sensor_fault_cycles fl cfg m
              [(a1, b1), (a2, b2), (a3, b3), (a4, b4)]).g_steering_control_state.enabled
            = false
        ∧ fault_reports (sensor_fault_cycles fl cfg m
              [(a1, b1), (a2, b2), (a3, b3), (a4, b4)]) = fault_reports m + 1
        ∧ DTC_CHECK (sensor_fault_cycles fl cfg m
              [(a1, b1), (a2, b2), (a3, b3), (a4, b4)]).g_steering_control_state.dtcs
            cfg.OSCC_STEERING_DTC_INVALID_SENSOR_VAL = true) := by
  simp only [sensor_fault_cycles] at hz2 hz3 hz4 ⊢
  have w1 : to_int16 ((0 : Int) + 1) = 1 := by decide
  have w2 : to_int16 ((1 : Int) + 1) = 2 := by decide
  have w3 : to_int16 ((2 : Int) + 1) = 3 := by decide
  have w4 : to_int16 ((3 : Int) + 1) = 4 := by decide
  obtain ⟨c1, u1, -⟩ := check_for_sensor_faults_zero fl cfg m a1 b1 (Or.inl hen) hz1
  rw [hcnt, w1] at c1 u1
  obtain ⟨s1, r1⟩ := u1 (by decide)
  have en1 : (check_for_sensor_faults fl cfg m a1 b1).g_steering_control_state.enabled
      = true := by rw [s1]; exact hen
  obtain ⟨c2, u2, -⟩ := check_for_sensor_faults_zero fl cfg _ a2 b2 (Or.inl en1) hz2
  rw [c1, w2] at c2 u2
  obtain ⟨s2, r2⟩ := u2 (by decide)
  have en2 : (check_for_sensor_faults fl cfg
      (check_for_sensor_faults fl cfg m a1 b1) a2 b2).g_steering_control_state.enabled
      = true := by rw [s2]; exact en1
  obtain ⟨c3, u3, -⟩ := check_for_sensor_faults_zero fl cfg _ a3 b3 (Or.inl en2) hz3
  rw [c2, w3] at c3 u3
  obtain ⟨s3, r3⟩ := u3 (by decide)
  have en3 : (check_for_sensor_faults fl cfg (check_for_sensor_faults fl cfg
      (check_for_sensor_faults fl cfg m a1 b1) a2 b2) a3 b3).g_steering_control_state.enabled
      = true := by rw [s3]; exact en2
  obtain ⟨-, -, d4⟩ := check_for_sensor_faults_zero fl cfg _ a4 b4 (Or.inl en3) hz4
  rw [c3, w4] at d4
  obtain ⟨dis4, set4, r4⟩ := d4 (by decide)
  refine ⟨⟨en1, ?_, r1⟩, ⟨en2, ?_, ?_⟩, ⟨en3, ?_, ?_⟩, ⟨dis4, ?_, set4⟩⟩
  · rw [s1]; exact hdtc
  · rw [s2, s1]; exact hdtc
  · rw [r2, r1]
  · rw [s3, s2, s1]; exact hdtc
  · rw [r3, r2, r1]
  · rw [r4, r3, r2, r1]

theorem sensor_fault_debounce_witness :
    (sensor_fault_cycles ratArith sample_config enabled_machine
        [(0, 0), (0, 0), (0, 0)]).g_steering_control_state.enabled = true
      ∧ (sensor_fault_cycles ratArith sample_config enabled_machine
        [(0, 0), (0, 0), (0, 0), (0, 0)]).g_steering_control_state.enabled = false
      ∧ DTC_CHECK (sensor_fault_cycles ratArith sample_config enabled_machine
        [(0, 0), (0, 0), (0, 0), (0, 0)]).g_steering_control_state.dtcs
          sample_config.OSCC_STEERING_DTC_INVALID_SENSOR_VAL = true :=
  have h := sensor_fault_debounce ratArith sample_config enabled_machine 0 0 0 0 0 0 0 0
    rfl (by decide) rfl
    (by simp [zero_channel, filtered_reading, read_torque_sensor, exponential_moving_average,
      ratArith, enabled_machine, initial, cli, sei, analogRead, emit, to_uint16])
    (by simp [zero_channel, filtered_reading, read_torque_sensor, exponential_moving_average,
      ratArith, enabled_machine, initial, cli, sei, analogRead, emit, to_uint16,
      sensor_fault_cycles, check_for_sensor_faults, to_int16,
      SENSOR_VALIDITY_CHECK_FAULT_COUNT])
    (by simp [zero_channel, filtered_reading, read_torque_sensor, exponential_moving_average,
      ratArith, enabled_machine, initial, cli, sei, analogRead, emit, to_uint16,
      sensor_fault_cycles, check_for_sensor_faults, to_int16,
      SENSOR_VALIDITY_CHECK_FAULT_COUNT])
    (by simp [zero_channel, filtered_reading, read_torque_sensor, exponential_moving_average,
      ratArith, enabled_machine, initial, cli, sei, analogRead, emit, to_uint16,
      sensor_fault_cycles, check_for_sensor_faults, to_int16,
      SENSOR_VALIDITY_CHECK_FAULT_COUNT])
  ⟨h.2.2.1.1, h.2.2.2.1, h.2.2.2.2.2⟩

/-- C6: whenever the fault monitor runs (control enabled or the invalid-sensor
bit latched) and the filtered reading has both channels nonzero, one call of
`check_for_sensor_faults` clears the invalid-sensor bit and sets the counter
to zero whatever it was; the enabled flag, `operator_override` and every other
fault bit are unchanged, and no fault report is emitted. -/
theorem sensor_fault_recovery (fl : FloatArith F) (cfg : Config) (m : Machine F) (a b : Nat)
    (hrun : m.g_steering_control_state.enabled = true
      ∨ DTC_CHECK m.g_steering_control_state.dtcs
          cfg.OSCC_STEERING_DTC_INVALID_SENSOR_VAL = true)
    (hh : (filtered_reading fl m a b).high ≠ 0)
    (hl : (filtered_reading fl m a b).low ≠ 0) :
    DTC_CHECK (check_for_sensor_faults fl cfg m a b).g_steering_control_state.dtcs
        cfg.OSCC_STEERING_DTC_INVALID_SENSOR_VAL = false
      ∧ (check_for_sensor_faults fl cfg m a b).fault_count = 0
      ∧ (check_for_sensor_faults fl cfg m a b).g_steering_control_state.enabled
          = m.g_steering_control_state.enabled
      ∧ (check_for_sensor_faults fl cfg m a b).g_steering_control_state.operator_override
          = m.g_steering_control_state.operator_override
      ∧ (∀ k, k ≠ cfg.OSCC_STEERING_DTC_INVALID_SENSOR_VAL →
          DTC_CHECK (check_for_sensor_faults fl cfg m a b).g_steering_control_state.dtcs k
            = DTC_CHECK m.g_steering_control_state.dtcs k)
      ∧ fault_reports (check_for_sensor_faults fl cfg m a b) = fault_reports m := by
  have hv : ¬ zero_channel (filtered_reading fl m a b) := by
    unfold zero_channel
    exact not_or.mpr ⟨hh, hl⟩
  rw [check_for_sensor_faults_valid fl cfg m a b hrun hv]
  refine ⟨DTC_CHECK_CLEAR_same _ _, rfl, rfl, rfl, fun k hk => DTC_CHECK_CLEAR_other _ _ k hk, ?_⟩
  exact read_torque_sensor_fault_reports fl m a b

theorem sensor_fault_recovery_witness :
    (check_for_sensor_faults ratArith sample_config
        { forced_machine with fault_count := 3 } 500 25).fault_count = 0
      ∧ (check_for_sensor_faults ratArith sample_config
        { forced_machine with fault_count := 3 } 500 25).g_steering_control_state.enabled
          = true :=
  have h := sensor_fault_recovery ratArith sample_config
    { forced_machine with fault_count := 3 } 500 25 (Or.inl rfl)
    (by norm_num [filtered_reading, read_torque_sensor, exponential_moving_average,
      ratArith, forced_machine, enabled_machine, initial, cli, sei, analogRead, emit,
      to_uint16, UINT16_MOD, Nat.shiftLeft_eq]; decide)
    (by norm_num [filtered_reading, read_torque_sensor, exponential_moving_average,
      ratArith, forced_machine, enabled_machine, initial, cli, sei, analogRead, emit,
      to_uint16, UINT16_MOD, Nat.shiftLeft_eq]; decide)
  ⟨h.2.1, h.2.2.1⟩

/-! ## The override detector -/

/-- The override detector on a reading beyond the threshold, gate open. -/
theorem check_for_operator_override_exceeded (fl : FloatArith F) (cfg : Config)
    (m : Machine F) (a b : Nat)
    (hrun : m.g_steering_control_state.enabled = true
      ∨ m.g_steering_control_state.operator_override = true)
    (hx : |((filtered_reading fl m a b).high : Int) - ((filtered_reading fl m a b).low : Int)|
      > (cfg.TORQUE_DIFFERENCE_THRESHOLD : Int)) :
    check_for_operator_override fl cfg m a b
      = { publish_fault_report (disable_control (read_torque_sensor fl m a b).1) with
          g_steering_control_state :=
            { (disable_control (read_torque_sensor fl m a b).1).g_steering_control_state with
              operator_override := true } } := by
  have hx' : |(((read_torque_sensor fl m a b).2.high : Nat) : Int)
      - (((read_torque_sensor fl m a b).2.low : Nat) : Int)|
      > (cfg.TORQUE_DIFFERENCE_THRESHOLD : Int) := hx
  unfold check_for_operator_override
  rw [if_pos hrun]
  simp only [hx', if_true]
  rfl

/-- The override detector on a reading within the threshold, gate open. -/
theorem check_for_operator_override_within (fl : FloatArith F) (cfg : Config)
    (m : Machine F) (a b : Nat)
    (hrun : m.g_steering_control_state.enabled = true
      ∨ m.g_steering_control_state.operator_override = true)
    (hx : ¬ |((filtered_reading fl m a b).high : Int) - ((filtered_reading fl m a b).low : Int)|
      > (cfg.TORQUE_DIFFERENCE_THRESHOLD : Int)) :
    check_for_operator_override fl cfg m a b
      = { (read_torque_sensor fl m a b).1 with
          g_steering_control_state :=
            { m.g_steering_control_state with operator_override := false } } := by
  have hx' : ¬ |(((read_torque_sensor fl m a b).2.high : Nat) : Int)
      - (((read_torque_sensor fl m a b).2.low : Nat) : Int)|
      > (cfg.TORQUE_DIFFERENCE_THRESHOLD : Int) := hx
  unfold check_for_operator_override
  rw [if_pos hrun]
  simp only [hx', if_false]
  rfl

theorem fault_reports_publish (m : Machine F) :
    fault_reports (publish_fault_report m) = fault_reports m + 1 := by
  simp [fault_reports, publish_fault_report]

/-- C7: whenever the override detector runs (control enabled or
`operator_override` already true), for the filtered reading `(high, low)` of
the cycle: afterwards `operator_override` is true exactly when
`|high - low| > TORQUE_DIFFERENCE_THRESHOLD`; beyond the threshold control is
disabled and exactly one fault report is emitted; within it the enabled flag
is unchanged and no report is emitted.  With a threshold between 50 and 1899
the reading `(2000, 100)` disables control and sets the flag, and the reading
`(1000, 950)` leaves the flag false. -/
theorem operator_override_decision (fl : FloatArith F) (cfg : Config) (m : Machine F)
    (a b : Nat)
    (hrun : m.g_steering_control_state.enabled = true
      ∨ m.g_steering_control_state.operator_override = true) :
    ((check_for_operator_override fl cfg m a b).g_steering_control_state.operator_override
          = true
        ↔ |((filtered_reading fl m a b).high : Int) - ((filtered_reading fl m a b).low : Int)|
            > (cfg.TORQUE_DIFFERENCE_THRESHOLD : Int))
      ∧ (|((filtered_reading fl m a b).high : Int) - ((filtered_reading fl m a b).low : Int)|
            > (cfg.TORQUE_DIFFERENCE_THRESHOLD : Int) →
          (check_for_operator_override fl cfg m a b).g_steering_control_state.enabled = false
            ∧ fault_reports (check_for_operator_override fl cfg m a b) = fault_reports m + 1)
      ∧ (¬ |((filtered_reading fl m a b).high : Int) - ((filtered_reading fl m a b).low : Int)|
            > (cfg.TORQUE_DIFFERENCE_THRESHOLD : Int) →
          (check_for_operator_override fl cfg m a b).g_steering_control_state.enabled
              = m.g_steering_control_state.enabled
            ∧ fault_reports (check_for_operator_override fl cfg m a b) = fault_reports m)
      ∧ (50 ≤ cfg.TORQUE_DIFFERENCE_THRESHOLD → cfg.TORQUE_DIFFERENCE_THRESHOLD ≤ 1899 →
          filtered_reading fl m a b = { high := 2000, low := 100 } →
          (check_for_operator_override fl cfg m a b).g_steering_control_state.enabled = false
            ∧ (check_for_operator_override fl cfg m a
                b).g_steering_control_state.operator_override = true)
      ∧ (50 ≤ cfg.TORQUE_DIFFERENCE_THRESHOLD → cfg.TORQUE_DIFFERENCE_THRESHOLD ≤ 1899 →
          filtered_reading fl m a b = { high := 1000, low := 950 } →
          (check_for_operator_override fl cfg m a
              b).g_steering_control_state.operator_override = false) := by
  have yes : |((filtered_reading fl m a b).high : Int) - ((filtered_reading fl m a b).low : Int)|
        > (cfg.TORQUE_DIFFERENCE_THRESHOLD : Int) →
      (check_for_operator_override fl cfg m a b).g_steering_control_state.operator_override
          = true
        ∧ (check_for_operator_override fl cfg m a b).g_steering_control_state.enabled = false
        ∧ fault_reports (check_for_operator_override fl cfg m a b) = fault_reports m + 1 := by
    intro hx
    rw [check_for_operator_override_exceeded fl cfg m a b hrun hx]
    refine ⟨rfl, disable_control_enabled _, ?_⟩
    have h1 := fault_reports_publish (disable_control (read_torque_sensor fl m a b).1)
    rw [disable_control_fault_reports, read_torque_sensor_fault_reports] at h1
    exact h1
  have no : ¬ |((filtered_reading fl m a b).high : Int)
        - ((filtered_reading fl m a b).low : Int)| > (cfg.TORQUE_DIFFERENCE_THRESHOLD : Int) →
      (check_for_operator_override fl cfg m a b).g_steering_control_state.operator_override
          = false
        ∧ (check_for_operator_override fl cfg m a b).g_steering_control_state.enabled
            = m.g_steering_control_state.enabled
        ∧ fault_reports (check_for_operator_override fl cfg m a b) = fault_reports m := by
    intro hx
    rw [check_for_operator_override_within fl cfg m a b hrun hx]
    exact ⟨rfl, rfl, read_torque_sensor_fault_reports fl m a b⟩
  refine ⟨⟨fun h => ?_, fun hx => (yes hx).1⟩, fun hx => (yes hx).2, fun hx => (no hx).2,
    fun h50 h1899 hr => ?_, fun h50 h1899 hr => ?_⟩
  · by_contra hx
    rw [(no hx).1] at h
    exact Bool.false_ne_true h
  · have hx : |((filtered_reading fl m a b).high : Int)
        - ((filtered_reading fl m a b).low : Int)| > (cfg.TORQUE_DIFFERENCE_THRESHOLD : Int) := by
      rw [hr]
      have e : |((2000 : Nat) : Int) - ((100 : Nat) : Int)| = 1900 := by decide
      simp only [e]
      omega
    exact ⟨(yes hx).2.1, (yes hx).1⟩
  · have hx : ¬ |((filtered_reading fl m a b).high : Int)
        - ((filtered_reading fl m a b).low : Int)| > (cfg.TORQUE_DIFFERENCE_THRESHOLD : Int) := by
      rw [hr]
      have e : |((1000 : Nat) : Int) - ((950 : Nat) : Int)| = 50 := by decide
      simp only [e]
      omega
    exact (no hx).1

theorem operator_override_decision_witness :
    ((check_for_operator_override ratArith sample_config forced_machine 500
          25).g_steering_control_state.enabled = false
        ∧ (check_for_operator_override ratArith sample_config forced_machine 500
          25).g_steering_control_state.operator_override = true)
      ∧ (check_for_operator_override ratArith sample_config steady_machine 250
          250).g_steering_control_state.operator_override = false :=
  ⟨(operator_override_decision ratArith sample_config forced_machine 500 25
      (Or.inl rfl)).2.2.2.1 (by decide) (by decide)
      (by norm_num [filtered_reading, read_torque_sensor, exponential_moving_average,
        ratArith, forced_machine, enabled_machine, initial, cli, sei, analogRead, emit,
        to_uint16, UINT16_MOD, Nat.shiftLeft_eq]; decide),
   (operator_override_decision ratArith sample_config steady_machine 250 250
      (Or.inl rfl)).2.2.2.2 (by decide) (by decide)
      (by norm_num [filtered_reading, read_torque_sensor, exponential_moving_average,
        ratArith, steady_machine, enabled_machine, initial, cli, sei, analogRead, emit,
        to_uint16, UINT16_MOD, Nat.shiftLeft_eq]; decide)⟩

/-! ## Enable gating and field ownership -/

/-- C8: `enable_control` performs the transition exactly when `enabled` and
`operator_override` are both false.  Then its program-order log gains, in this
order, the pre-load with 20 samples on the two torque sensor pins, `cli`, the
write of `HIGH` to the spoof-enable line, `sei`, and only after them the store
`enabled = true`; the hardware trace gains the four actions, and the resulting
machine is the given one with `enabled` true, interrupts enabled, the line
`HIGH` and these additions, everything else unchanged.  In every other state
(already enabled, or override flagged) it returns the machine it was given.
It never changes `operator_override` or the fault bits. -/
theorem enable_control_transition (m : Machine F) :
    (m.g_steering_control_state.enabled = false
        ∧ m.g_steering_control_state.operator_override = false →
      (enable_control m).log
          = m.log ++
            [Logged.action (Event.prevent_signal_discontinuity 20
               Pin.PIN_TORQUE_SENSOR_HIGH Pin.PIN_TORQUE_SENSOR_LOW),
             Logged.action Event.cli,
             Logged.action (Event.digitalWrite Pin.PIN_SPOOF_ENABLE Level.HIGH),
             Logged.action Event.sei,
             Logged.store_enabled true]
        ∧ (enable_control m).trace
          = m.trace ++
            [Event.prevent_signal_discontinuity 20
               Pin.PIN_TORQUE_SENSOR_HIGH Pin.PIN_TORQUE_SENSOR_LOW,
             Event.cli,
             Event.digitalWrite Pin.PIN_SPOOF_ENABLE Level.HIGH,
             Event.sei]
        ∧ enable_control m
            = { m with
                g_steering_control_state :=
                  { m.g_steering_control_state with enabled := true },
                interrupts := true,
                spoof_enable := Level.HIGH,
                trace := m.trace ++
                  [Event.prevent_signal_discontinuity 20
                     Pin.PIN_TORQUE_SENSOR_HIGH Pin.PIN_TORQUE_SENSOR_LOW,
                   Event.cli,
                   Event.digitalWrite Pin.PIN_SPOOF_ENABLE Level.HIGH,
                   Event.sei],
                log := m.log ++
                  [Logged.action (Event.prevent_signal_discontinuity 20
                     Pin.PIN_TORQUE_SENSOR_HIGH Pin.PIN_TORQUE_SENSOR_LOW),
                   Logged.action Event.cli,
                   Logged.action (Event.digitalWrite Pin.PIN_SPOOF_ENABLE Level.HIGH),
                   Logged.action Event.sei,
                   Logged.store_enabled true] }
        ∧ (enable_control m).g_steering_control_state.enabled = true
        ∧ (enable_control m).spoof_enable = Level.HIGH)
      ∧ (¬ (m.g_steering_control_state.enabled = false
            ∧ m.g_steering_control_state.operator_override = false) →
          enable_control m = m)
      ∧ (enable_control m).g_steering_control_state.operator_override
          = m.g_steering_control_state.operator_override
      ∧ (enable_control m).g_steering_control_state.dtcs
          = m.g_steering_control_state.dtcs := by
  by_cases h : m.g_steering_control_state.enabled = false
      ∧ m.g_steering_control_state.operator_override = false
  · refine ⟨fun _ => ⟨?_, ?_, ?_, ?_, ?_⟩, fun hn => absurd h hn, ?_, ?_⟩
    · simp [enable_control, h.1, h.2, sei, cli, digitalWrite, prevent_signal_discontinuity]
    · simp [enable_control, h.1, h.2, sei, cli, digitalWrite, prevent_signal_discontinuity]
    · simp [enable_control, h.1, h.2, sei, cli, digitalWrite, prevent_signal_discontinuity,
        emit, store_enabled]
    · simp [enable_control, h.1, h.2]
    · simp [enable_control, h.1, h.2, sei, cli, digitalWrite]
    · simp [enable_control, h.1, h.2, sei, cli, digitalWrite, prevent_signal_discontinuity]
    · simp [enable_control, h.1, h.2, sei, cli, digitalWrite, prevent_signal_discontinuity]
  · have e : enable_control m = m := by
      unfold enable_control
      rw [if_neg h]
    refine ⟨fun hc => absurd hc h, fun _ => e, ?_, ?_⟩
    · rw [e]
    · rw [e]

theorem enable_control_transition_witness :
    (enable_control (initial ratArith)).log
      = [Logged.action (Event.prevent_signal_discontinuity 20
           Pin.PIN_TORQUE_SENSOR_HIGH Pin.PIN_TORQUE_SENSOR_LOW),
         Logged.action Event.cli,
         Logged.action (Event.digitalWrite Pin.PIN_SPOOF_ENABLE Level.HIGH),
         Logged.action Event.sei,
         Logged.store_enabled true]
      ∧ enable_control overridden_machine = overridden_machine :=
  ⟨((enable_control_transition (initial ratArith)).1 ⟨rfl, rfl⟩).1,
   (enable_control_transition overridden_machine).2.1 (by decide)⟩

/-- C9 as stated fails: in the state reached from process start by enabling
control and feeding four zero-reading cycles to the fault monitor, the
invalid-sensor bit is latched and control is disabled, yet `enable_control`
enables control and asserts the spoof-enable line. -/
theorem enable_control_ignores_latched_fault :
    DTC_CHECK latched_machine.g_steering_control_state.dtcs
        sample_config.OSCC_STEERING_DTC_INVALID_SENSOR_VAL = true
      ∧ latched_machine.g_steering_control_state.enabled = false
      ∧ (enable_control latched_machine).g_steering_control_state.enabled = true
      ∧ (enable_control latched_machine).spoof_enable = Level.HIGH := by
  have e : latched_machine.g_steering_control_state
      = { enabled := false, operator_override := false, dtcs := 1 } := by
    simp [latched_machine, sensor_fault_cycles, check_for_sensor_faults, read_torque_sensor,
      exponential_moving_average, ratArith, enable_control, disable_control, initial,
      prevent_signal_discontinuity, publish_fault_report, digitalWrite, cli, sei, analogRead,
      emit, to_uint16, to_int16, SENSOR_VALIDITY_CHECK_FAULT_COUNT, DTC_SET, sample_config]
  refine ⟨?_, ?_, ?_, ?_⟩
  · rw [e]; decide
  · rw [e]
  · simp [enable_control, e]
  · simp [enable_control, e, sei, cli, digitalWrite, prevent_signal_discontinuity]

/-- C9, amended: there is no retry of actuation while an operator override
persists: in every state with `operator_override` true and control disabled,
`enable_control` leaves control disabled, does not write the spoof-enable line
and adds nothing to the trace. -/
theorem enable_control_blocked_by_override (m : Machine F)
    (hov : m.g_steering_control_state.operator_override = true)
    (hdis : m.g_steering_control_state.enabled = false) :
    (enable_control m).g_steering_control_state.enabled = false
      ∧ (enable_control m).spoof_enable = m.spoof_enable
      ∧ (enable_control m).trace = m.trace := by
  have e : enable_control m = m := by simp [enable_control, hov]
  rw [e]
  exact ⟨hdis, rfl, rfl⟩

theorem enable_control_blocked_by_override_witness :
    (enable_control overridden_machine).g_steering_control_state.enabled = false
      ∧ (enable_control overridden_machine).spoof_enable = Level.LOW
      ∧ (enable_control overridden_machine).trace = [] :=
  enable_control_blocked_by_override overridden_machine rfl rfl

/-- C10: single writer per field.  `enable_control` and `disable_control`
leave `operator_override` and the fault bits unchanged; `update_steering`
leaves the whole control state unchanged; `check_for_operator_override` leaves
the fault bits and the fault counter unchanged and changes `enabled` only
through its call of `disable_control`; `check_for_sensor_faults` leaves
`operator_override` unchanged and changes `enabled` only through its call of
`disable_control`. -/
theorem single_writer_per_field (fl : FloatArith F) (cfg : Config) (m : Machine F)
    (a b h l : Nat) :
    ((enable_control m).g_steering_control_state.operator_override
          = m.g_steering_control_state.operator_override
        ∧ (enable_control m).g_steering_control_state.dtcs = m.g_steering_control_state.dtcs)
      ∧ ((disable_control m).g_steering_control_state.operator_override
          = m.g_steering_control_state.operator_override
        ∧ (disable_control m).g_steering_control_state.dtcs = m.g_steering_control_state.dtcs)
      ∧ (update_steering cfg m h l).g_steering_control_state = m.g_steering_control_state
      ∧ ((check_for_operator_override fl cfg m a b).g_steering_control_state.dtcs
          = m.g_steering_control_state.dtcs
        ∧ (check_for_operator_override fl cfg m a b).fault_count = m.fault_count
        ∧ ((check_for_operator_override fl cfg m a b).g_steering_control_state.enabled
              = m.g_steering_control_state.enabled
            ∨ (check_for_operator_override fl cfg m a b).g_steering_control_state.enabled
              = (disable_control
                  (read_torque_sensor fl m a b).1).g_steering_control_state.enabled))
      ∧ ((check_for_sensor_faults fl cfg m a b).g_steering_control_state.operator_override
          = m.g_steering_control_state.operator_override
        ∧ ((check_for_sensor_faults fl cfg m a b).g_steering_control_state.enabled
              = m.g_steering_control_state.enabled
            ∨ (check_for_sensor_faults fl cfg m a b).g_steering_control_state.enabled
              = (disable_control
                  { (read_torque_sensor fl m a b).1 with
                    fault_count := to_int16 (m.fault_count + 1)
                  }).g_steering_control_state.enabled)) := by
  refine ⟨⟨?_, ?_⟩, ⟨disable_control_operator_override m, disable_control_dtcs m⟩, ?_,
    ⟨?_, ?_, ?_⟩, ⟨?_, ?_⟩⟩
  · unfold enable_control
    split_ifs <;> simp [sei, cli, digitalWrite, prevent_signal_discontinuity]
  · unfold enable_control
    split_ifs <;> simp [sei, cli, digitalWrite, prevent_signal_discontinuity]
  · unfold update_steering
    split_ifs <;> simp [sei, cli, outputA, outputB]
  · unfold check_for_operator_override
    dsimp only
    split_ifs <;> simp [publish_fault_report]
  · unfold check_for_operator_override
    dsimp only
    split_ifs <;> simp [publish_fault_report]
  · unfold check_for_operator_override
    dsimp only
    split_ifs <;> simp [publish_fault_report]
  · unfold check_for_sensor_faults
    dsimp only
    split_ifs <;> simp [publish_fault_report]
  · unfold check_for_sensor_faults
    dsimp only
    split_ifs <;> simp [publish_fault_report]

/-! ## Gated checks and the filter -/

theorem check_for_operator_override_closed (fl : FloatArith F) (cfg : Config) (m : Machine F)
    (a b : Nat)
    (h : ¬ (m.g_steering_control_state.enabled = true
      ∨ m.g_steering_control_state.operator_override = true)) :
    check_for_operator_override fl cfg m a b = m := by
  unfold check_for_operator_override
  rw [if_neg h]

theorem check_for_sensor_faults_closed (fl : FloatArith F) (cfg : Config) (m : Machine F)
    (a b : Nat)
    (h : ¬ (m.g_steering_control_state.enabled = true
      ∨ DTC_CHECK m.g_steering_control_state.dtcs
          cfg.OSCC_STEERING_DTC_INVALID_SENSOR_VAL = true)) :
    check_for_sensor_faults fl cfg m a b = m := by
  unfold check_for_sensor_faults
  rw [if_neg h]

/-- C11: a check whose gating condition is false returns the machine it was
given, whatever the samples: with control disabled and `operator_override`
false, `check_for_operator_override` changes neither the control state nor the
accumulators and adds nothing to the trace (no sample read, no report); with
control disabled and the invalid-sensor bit clear, the same holds for
`check_for_sensor_faults`, fault counter included. -/
theorem gated_checks_do_nothing (fl : FloatArith F) (cfg : Config) (m : Machine F)
    (a b : Nat) :
    (m.g_steering_control_state.enabled = false
        → m.g_steering_control_state.operator_override = false
        → check_for_operator_override fl cfg m a b = m)
      ∧ (m.g_steering_control_state.enabled = false
        → DTC_CHECK m.g_steering_control_state.dtcs
            cfg.OSCC_STEERING_DTC_INVALID_SENSOR_VAL = false
        → check_for_sensor_faults fl cfg m a b = m) := by
  constructor
  · intro h1 h2
    exact check_for_operator_override_closed fl cfg m a b (by simp [h1, h2])
  · intro h1 h2
    exact check_for_sensor_faults_closed fl cfg m a b (by simp [h1, h2])

theorem gated_checks_do_nothing_witness :
    check_for_operator_override ratArith sample_config (initial ratArith) 500 25
        = initial ratArith
      ∧ check_for_sensor_faults ratArith sample_config (initial ratArith) 0 0
        = initial ratArith :=
  ⟨(gated_checks_do_nothing ratArith sample_config (initial ratArith) 500 25).1 rfl rfl,
   (gated_checks_do_nothing ratArith sample_config (initial ratArith) 0 0).2 rfl (by decide)⟩

theorem exponential_moving_average_rat (alpha input average : ℚ) :
    exponential_moving_average ratArith alpha input average
      = alpha * input + (1 - alpha) * average := rfl

theorem filter_cycles_closed_form (x a0 : ℚ) (n : Nat) :
    filter_cycles ratArith x a0 n = x - (99 / 100) ^ n * (x - a0) := by
  induction n with
  | zero => simp [filter_cycles]
  | succ k ih =>
    have hα : ratArith.filter_alpha = 1 / 100 := rfl
    simp only [filter_cycles, exponential_moving_average_rat, ih, hα, pow_succ]
    ring

/-- C12: over exact rational arithmetic the filter step is
`acc = alpha * input + (1 - alpha) * acc` with `alpha = 1/100` (this is the
accumulator update of `read_torque_sensor` on both channels); for a constant
input `x` held for `n` cycles from `a0` the accumulator is
`x - (99/100)^n * (x - a0)`; the sequence is non-decreasing and never above
`x` when `a0 ≤ x`, non-increasing and never below `x` when `x ≤ a0`; the
distance to `x` shrinks by the factor `99/100` each cycle; and `x` is a fixed
point. -/
theorem filter_converges_monotonically (x a0 : ℚ) (n : Nat) (m : Machine ℚ)
    (sample_high sample_low : Nat) :
    exponential_moving_average ratArith ratArith.filter_alpha x a0
        = (1 / 100) * x + (1 - 1 / 100) * a0
      ∧ (read_torque_sensor ratArith m sample_high sample_low).1.filtered_torque_high
          = (1 / 100) * ((to_uint16 (sample_high <<< 2) : Nat) : ℚ)
            + (1 - 1 / 100) * m.filtered_torque_high
      ∧ (read_torque_sensor ratArith m sample_high sample_low).1.filtered_torque_low
          = (1 / 100) * ((to_uint16 (sample_low <<< 2) : Nat) : ℚ)
            + (1 - 1 / 100) * m.filtered_torque_low
      ∧ filter_cycles ratArith x a0 n = x - (99 / 100) ^ n * (x - a0)
      ∧ (a0 ≤ x →
          filter_cycles ratArith x a0 n ≤ filter_cycles ratArith x a0 (n + 1)
            ∧ filter_cycles ratArith x a0 n ≤ x)
      ∧ (x ≤ a0 →
          filter_cycles ratArith x a0 (n + 1) ≤ filter_cycles ratArith x a0 n
            ∧ x ≤ filter_cycles ratArith x a0 n)
      ∧ |x - filter_cycles ratArith x a0 (n + 1)|
          = (99 / 100) * |x - filter_cycles ratArith x a0 n|
      ∧ filter_cycles ratArith x x n = x := by
  have hp : (0 : ℚ) ≤ (99 / 100) ^ n := by positivity
  refine ⟨rfl, rfl, rfl, filter_cycles_closed_form x a0 n, ?_, ?_, ?_, ?_⟩
  · intro h
    rw [filter_cycles_closed_form, filter_cycles_closed_form, pow_succ]
    have : 0 ≤ (99 / 100 : ℚ) ^ n * (x - a0) := mul_nonneg hp (by linarith)
    constructor <;> nlinarith
  · intro h
    rw [filter_cycles_closed_form, filter_cycles_closed_form, pow_succ]
    have : 0 ≤ (99 / 100 : ℚ) ^ n * (a0 - x) := mul_nonneg hp (by linarith)
    constructor <;> nlinarith
  · rw [filter_cycles_closed_form, filter_cycles_closed_form, pow_succ]
    have e1 : x - (x - (99 / 100 : ℚ) ^ n * (99 / 100) * (x - a0))
        = (99 / 100) * ((99 / 100) ^ n * (x - a0)) := by ring
    have e2 : x - (x - (99 / 100 : ℚ) ^ n * (x - a0)) = (99 / 100) ^ n * (x - a0) := by ring
    rw [e1, e2, abs_mul]
    norm_num
  · rw [filter_cycles_closed_form]
    ring

theorem filter_converges_monotonically_witness :
    filter_cycles ratArith 100 0 1 ≤ filter_cycles ratArith 100 0 2
      ∧ filter_cycles ratArith 100 0 1 ≤ 100
      ∧ filter_cycles ratArith 100 200 2 ≤ filter_cycles ratArith 100 200 1
      ∧ (100 : ℚ) ≤ filter_cycles ratArith 100 200 1 :=
  ⟨((filter_converges_monotonically 100 0 1 (initial ratArith) 0 0).2.2.2.2.1
      (by norm_num)).1,
   ((filter_converges_monotonically 100 0 1 (initial ratArith) 0 0).2.2.2.2.1
      (by norm_num)).2,
   ((filter_converges_monotonically 100 200 1 (initial ratArith) 0 0).2.2.2.2.2.1
      (by norm_num)).1,
   ((filter_converges_monotonically 100 200 1 (initial ratArith) 0 0).2.2.2.2.2.1
      (by norm_num)).2⟩

/-! ## Executions: the debounce counter -/

theorem run_nil (fl : FloatArith F) (cfg : Config) (m : Machine F) : run fl cfg m [] = m := rfl

theorem run_cons (fl : FloatArith F) (cfg : Config) (m : Machine F) (op : Op)
    (ops : List Op) : run fl cfg m (op :: ops) = run fl cfg (step fl cfg m op) ops := rfl

theorem run_append (fl : FloatArith F) (cfg : Config) (m : Machine F) (xs ys : List Op) :
    run fl cfg m (xs ++ ys) = run fl cfg (run fl cfg m xs) ys := by
  simp [run, List.foldl_append]

theorem run_snoc (fl : FloatArith F) (cfg : Config) (m : Machine F) (ops : List Op)
    (op : Op) : run fl cfg m (ops ++ [op]) = step fl cfg (run fl cfg m ops) op := by
  rw [run_append]
  rfl

theorem monitor_history_snoc (fl : FloatArith F) (cfg : Config) (m : Machine F)
    (ops : List Op) (op : Op) :
    monitor_history fl cfg m (ops ++ [op])
      = monitor_history fl cfg m ops ++ monitor_observation fl cfg (run fl cfg m ops) op := by
  induction ops generalizing m with
  | nil => simp [monitor_history, run_nil]
  | cons o rest ih => simp [monitor_history, run_cons, ih]

theorem readings_taken_snoc (fl : FloatArith F) (cfg : Config) (m : Machine F)
    (ops : List Op) (op : Op) :
    readings_taken fl cfg m (ops ++ [op])
      = ((monitor_observation fl cfg (run fl cfg m ops) op).filterMap id).reverse
        ++ readings_taken fl cfg m ops := by
  simp [readings_taken, monitor_history_snoc, List.filterMap_append]

theorem to_int16_succ (k : Nat) :
    to_int16 (to_int16 (k : Int) + 1) = to_int16 ((k + 1 : Nat) : Int) := by
  unfold to_int16
  push_cast
  omega

theorem to_int16_ge_four (k : Nat) (h : 4 ≤ to_int16 ((k + 1 : Nat) : Int)) : 3 ≤ k := by
  unfold to_int16 at h
  push_cast at h
  omega

theorem zero_run_take (k : Nat) (l : List steering_torque_s) (h : k ≤ zero_run l) :
    k ≤ l.length ∧ ∀ r ∈ l.take k, zero_channel r := by
  induction l generalizing k with
  | nil =>
    simp only [zero_run] at h
    have : k = 0 := by omega
    subst this
    simp
  | cons t rest ih =>
    cases k with
    | zero => simp
    | succ j =>
      by_cases hz : zero_channel t
      · simp only [zero_run, hz, if_true] at h
        obtain ⟨h1, h2⟩ := ih j (by omega)
        refine ⟨by simp only [List.length_cons]; omega, ?_⟩
        intro r hr
        simp only [List.take_succ_cons, List.mem_cons] at hr
        rcases hr with rfl | hr
        · exact hz
        · exact h2 r hr
      · simp only [zero_run, hz, if_false] at h
        omega

theorem enable_control_fault_count (m : Machine F) :
    (enable_control m).fault_count = m.fault_count := by
  unfold enable_control
  split_ifs <;> simp [sei, cli, digitalWrite, prevent_signal_discontinuity]

theorem update_steering_fault_count (cfg : Config) (m : Machine F) (h l : Nat) :
    (update_steering cfg m h l).fault_count = m.fault_count := by
  unfold update_steering
  split_ifs <;> simp [sei, cli, outputA, outputB]

theorem check_for_operator_override_fault_count (fl : FloatArith F) (cfg : Config)
    (m : Machine F) (a b : Nat) :
    (check_for_operator_override fl cfg m a b).fault_count = m.fault_count := by
  unfold check_for_operator_override
  dsimp only
  split_ifs <;> simp [publish_fault_report]

/-- Along every execution from process start the fault counter is the length,
stored in a 16-bit `int`, of the current run of zero-channel readings among
the readings the monitor took. -/
theorem fault_count_tracks_zero_run (fl : FloatArith F) (cfg : Config) (ops : List Op) :
    (run fl cfg (initial fl) ops).fault_count
      = to_int16 ((zero_run (readings_taken fl cfg (initial fl) ops) : Nat) : Int) := by
  induction ops using List.reverseRecOn with
  | nil => simp [run_nil, readings_taken, monitor_history, zero_run, initial, to_int16]
  | append_singleton ops op ih =>
    rw [run_snoc, readings_taken_snoc]
    cases op with
    | enable_control =>
      simpa [step, monitor_observation, enable_control_fault_count] using ih
    | disable_control =>
      simpa [step, monitor_observation] using ih
    | update_steering h l =>
      simpa [step, monitor_observation, update_steering_fault_count] using ih
    | check_for_operator_override a b =>
      simpa [step, monitor_observation, check_for_operator_override_fault_count] using ih
    | check_for_sensor_faults a b =>
      simp only [step, monitor_observation]
      by_cases hrun : (run fl cfg (initial fl) ops).g_steering_control_state.enabled = true
          ∨ DTC_CHECK (run fl cfg (initial fl) ops).g_steering_control_state.dtcs
              cfg.OSCC_STEERING_DTC_INVALID_SENSOR_VAL = true
      · rw [if_pos hrun]
        simp only [List.filterMap_cons, id, List.filterMap_nil, List.reverse_cons,
          List.reverse_nil, List.nil_append, List.singleton_append]
        by_cases hz : zero_channel (filtered_reading fl (run fl cfg (initial fl) ops) a b)
        · rw [(check_for_sensor_faults_zero fl cfg _ a b hrun hz).1, ih]
          simp only [zero_run, hz, if_true]
          exact to_int16_succ _
        · rw [check_for_sensor_faults_valid fl cfg _ a b hrun hz]
          simp [zero_run, hz, to_int16]
      · rw [if_neg hrun, check_for_sensor_faults_closed fl cfg _ a b hrun]
        simpa using ih

/-- C13 as stated fails: in the execution `stale_counter_ops` control is
enabled, one further call of `check_for_sensor_faults` with a zero reading
disables it, and of the three calls of `check_for_sensor_faults` before that
one the last took no reading at all (its guard was false; the reading it
would have taken is `(1, 1)`). -/
theorem debounce_counts_across_disable :
    (run ratArith sample_config (initial ratArith)
        stale_counter_ops).g_steering_control_state.enabled = true
      ∧ (check_for_sensor_faults ratArith sample_config
          (run ratArith sample_config (initial ratArith) stale_counter_ops)
          0 0).g_steering_control_state.enabled = false
      ∧ monitor_history ratArith sample_config (initial ratArith) stale_counter_ops
          = [some { high := 0, low := 0 }, some { high := 0, low := 0 },
             some { high := 0, low := 0 }, none]
      ∧ filtered_reading ratArith
          (run ratArith sample_config (initial ratArith) (stale_counter_ops.take 5)) 25 25
          = { high := 1, low := 1 } := by
  refine ⟨?_, ?_, ?_, ?_⟩
  · simp [stale_counter_ops, run, step, check_for_sensor_faults, read_torque_sensor,
      exponential_moving_average, ratArith, enable_control, disable_control, initial,
      prevent_signal_discontinuity, publish_fault_report, digitalWrite, cli, sei, analogRead,
      emit, to_uint16, to_int16, SENSOR_VALIDITY_CHECK_FAULT_COUNT, DTC_SET, DTC_CHECK,
      sample_config]
  · simp [stale_counter_ops, run, step, check_for_sensor_faults, read_torque_sensor,
      exponential_moving_average, ratArith, enable_control, disable_control, initial,
      prevent_signal_discontinuity, publish_fault_report, digitalWrite, cli, sei, analogRead,
      emit, to_uint16, to_int16, SENSOR_VALIDITY_CHECK_FAULT_COUNT, DTC_SET, DTC_CHECK,
      sample_config]
  · simp [stale_counter_ops, monitor_history, monitor_observation, filtered_reading, step,
      check_for_sensor_faults, read_torque_sensor,
      exponential_moving_average, ratArith, enable_control, disable_control, initial,
      prevent_signal_discontinuity, publish_fault_report, digitalWrite, cli, sei, analogRead,
      emit, to_uint16, to_int16, SENSOR_VALIDITY_CHECK_FAULT_COUNT, DTC_SET, DTC_CHECK,
      sample_config]
  · norm_num [stale_counter_ops, run, filtered_reading, step,
      check_for_sensor_faults, read_torque_sensor,
      exponential_moving_average, ratArith, enable_control, disable_control, initial,
      prevent_signal_discontinuity, publish_fault_report, digitalWrite, cli, sei, analogRead,
      emit, to_uint16, to_int16, SENSOR_VALIDITY_CHECK_FAULT_COUNT, DTC_SET, DTC_CHECK,
      sample_config, UINT16_MOD, Nat.shiftLeft_eq]

/-- C13, amended: in every execution from process start, whenever a call of
`check_for_sensor_faults` changes control from enabled to disabled, the
reading of that call has a zero channel and so do the three most recent
readings the monitor took before it (calls made while the guard of the monitor
is false take no reading and are not counted); equivalently the run of
zero-channel readings before the call has length at least three. -/
theorem debounce_over_readings_taken (fl : FloatArith F) (cfg : Config) (ops : List Op)
    (a b : Nat)
    (hen : (run fl cfg (initial fl) ops).g_steering_control_state.enabled = true)
    (hdis : (check_for_sensor_faults fl cfg (run fl cfg (initial fl) ops)
      a b).g_steering_control_state.enabled = false) :
    zero_channel (filtered_reading fl (run fl cfg (initial fl) ops) a b)
      ∧ 3 ≤ zero_run (readings_taken fl cfg (initial fl) ops)
      ∧ 3 ≤ (readings_taken fl cfg (initial fl) ops).length
      ∧ ∀ r ∈ (readings_taken fl cfg (initial fl) ops).take 3, zero_channel r := by
  have hrun : (run fl cfg (initial fl) ops).g_steering_control_state.enabled = true
      ∨ DTC_CHECK (run fl cfg (initial fl) ops).g_steering_control_state.dtcs
          cfg.OSCC_STEERING_DTC_INVALID_SENSOR_VAL = true := Or.inl hen
  have hz : zero_channel (filtered_reading fl (run fl cfg (initial fl) ops) a b) := by
    by_contra hv
    rw [check_for_sensor_faults_valid fl cfg _ a b hrun hv] at hdis
    simp only at hdis
    rw [hen] at hdis
    exact Bool.noConfusion hdis
  obtain ⟨-, hlow, -⟩ := check_for_sensor_faults_zero fl cfg _ a b hrun hz
  have h4 : 4 ≤ to_int16 ((run fl cfg (initial fl) ops).fault_count + 1) := by
    by_contra hlt
    obtain ⟨hs, -⟩ := hlow (by omega)
    rw [hs, hen] at hdis
    exact Bool.noConfusion hdis
  rw [fault_count_tracks_zero_run, to_int16_succ] at h4
  have h3 := to_int16_ge_four _ h4
  exact ⟨hz, h3, zero_run_take 3 _ h3⟩

theorem debounce_over_readings_taken_witness :
    zero_channel (filtered_reading ratArith
        (run ratArith sample_config (initial ratArith)
          [Op.enable_control, Op.check_for_sensor_faults 0 0,
           Op.check_for_sensor_faults 0 0, Op.check_for_sensor_faults 0 0]) 0 0)
      ∧ 3 ≤ zero_run (readings_taken ratArith sample_config (initial ratArith)
          [Op.enable_control, Op.check_for_sensor_faults 0 0,
           Op.check_for_sensor_faults 0 0, Op.check_for_sensor_faults 0 0]) :=
  have h := debounce_over_readings_taken ratArith sample_config
    [Op.enable_control, Op.check_for_sensor_faults 0 0,
     Op.check_for_sensor_faults 0 0, Op.check_for_sensor_faults 0 0] 0 0
    (by simp [run, step, check_for_sensor_faults, read_torque_sensor,
      exponential_moving_average, ratArith, enable_control, disable_control, initial,
      prevent_signal_discontinuity, publish_fault_report, digitalWrite, cli, sei, analogRead,
      emit, to_uint16, to_int16, SENSOR_VALIDITY_CHECK_FAULT_COUNT, DTC_SET, DTC_CHECK,
      sample_config])
    (by simp [run, step, check_for_sensor_faults, read_torque_sensor,
      exponential_moving_average, ratArith, enable_control, disable_control, initial,
      prevent_signal_discontinuity, publish_fault_report, digitalWrite, cli, sei, analogRead,
      emit, to_uint16, to_int16, SENSOR_VALIDITY_CHECK_FAULT_COUNT, DTC_SET, DTC_CHECK,
      sample_config])
  ⟨h.1, h.2.1⟩

/-! ## Symmetry of the override decision -/

theorem disable_control_state (m : Machine F) :
    (disable_control m).g_steering_control_state
      = { m.g_steering_control_state with enabled := false } := by
  by_cases h : m.g_steering_control_state.enabled = true
  · simp [disable_control, h, sei, cli, digitalWrite, prevent_signal_discontinuity]
  · have hf : m.g_steering_control_state.enabled = false := by simpa using h
    unfold disable_control
    rw [if_neg h]
    rcases hm : m.g_steering_control_state with ⟨e, o, d⟩
    rw [hm] at hf
    simp only at hf
    subst hf
    rfl

/-- The control state after the override detector, gate open, as a function
of the old control state and of whether the threshold is exceeded. -/
theorem check_for_operator_override_state (fl : FloatArith F) (cfg : Config) (m : Machine F)
    (a b : Nat)
    (hrun : m.g_steering_control_state.enabled = true
      ∨ m.g_steering_control_state.operator_override = true) :
    (check_for_operator_override fl cfg m a b).g_steering_control_state
      = if |((filtered_reading fl m a b).high : Int) - ((filtered_reading fl m a b).low : Int)|
            > (cfg.TORQUE_DIFFERENCE_THRESHOLD : Int) then
          { m.g_steering_control_state with enabled := false, operator_override := true }
        else
          { m.g_steering_control_state with operator_override := false } := by
  by_cases hx : |((filtered_reading fl m a b).high : Int)
      - ((filtered_reading fl m a b).low : Int)| > (cfg.TORQUE_DIFFERENCE_THRESHOLD : Int)
  · rw [if_pos hx, check_for_operator_override_exceeded fl cfg m a b hrun hx]
    simp [disable_control_state]
  · rw [if_neg hx, check_for_operator_override_within fl cfg m a b hrun hx]

/-- C14: the override decision is symmetric in the two channels and uses the
difference over the integers.  Two calls of `check_for_operator_override`
from the same control state whose filtered readings are `(high, low)` and
`(low, high)` end in the same control state; when the detector runs, the flag
is set exactly when `|high - low| > TORQUE_DIFFERENCE_THRESHOLD` over the
integers, that is when `high > low + T` or `low > high + T` over the naturals;
so a reading with `low` above `high` by more than the threshold sets the flag
and disables control, and one with `low` above `high` by at most the threshold
does not. -/
theorem override_decision_symmetric (fl : FloatArith F) (cfg : Config) (m m2 : Machine F)
    (a b a2 b2 : Nat)
    (hs : m2.g_steering_control_state = m.g_steering_control_state)
    (hh : (filtered_reading fl m2 a2 b2).high = (filtered_reading fl m a b).low)
    (hl : (filtered_reading fl m2 a2 b2).low = (filtered_reading fl m a b).high) :
    (check_for_operator_override fl cfg m2 a2 b2).g_steering_control_state
        = (check_for_operator_override fl cfg m a b).g_steering_control_state
      ∧ (m.g_steering_control_state.enabled = true
            ∨ m.g_steering_control_state.operator_override = true →
          ((check_for_operator_override fl cfg m a b).g_steering_control_state.operator_override
              = true
            ↔ |((filtered_reading fl m a b).high : Int)
                - ((filtered_reading fl m a b).low : Int)|
                > (cfg.TORQUE_DIFFERENCE_THRESHOLD : Int))
          ∧ ((check_for_operator_override fl cfg m a
                b).g_steering_control_state.operator_override = true
            ↔ ((filtered_reading fl m a b).low + cfg.TORQUE_DIFFERENCE_THRESHOLD
                  < (filtered_reading fl m a b).high
                ∨ (filtered_reading fl m a b).high + cfg.TORQUE_DIFFERENCE_THRESHOLD
                  < (filtered_reading fl m a b).low))
          ∧ ((filtered_reading fl m a b).high + cfg.TORQUE_DIFFERENCE_THRESHOLD
                < (filtered_reading fl m a b).low →
              (check_for_operator_override fl cfg m a
                  b).g_steering_control_state.operator_override = true
                ∧ (check_for_operator_override fl cfg m a
                  b).g_steering_control_state.enabled = false)
          ∧ ((filtered_reading fl m a b).high < (filtered_reading fl m a b).low →
              (filtered_reading fl m a b).low
                ≤ (filtered_reading fl m a b).high + cfg.TORQUE_DIFFERENCE_THRESHOLD →
              (check_for_operator_override fl cfg m a
                  b).g_steering_control_state.operator_override = false)) := by
  have habs : ∀ (x y : Nat) (t : Nat),
      (|(x : Int) - (y : Int)| > (t : Int)) ↔ (y + t < x ∨ x + t < y) := by
    intro x y t
    rw [gt_iff_lt, lt_abs]
    omega
  constructor
  · by_cases hrun : m.g_steering_control_state.enabled = true
        ∨ m.g_steering_control_state.operator_override = true
    · have hrun2 : m2.g_steering_control_state.enabled = true
          ∨ m2.g_steering_control_state.operator_override = true := by rw [hs]; exact hrun
      rw [check_for_operator_override_state fl cfg m a b hrun,
        check_for_operator_override_state fl cfg m2 a2 b2 hrun2, hh, hl, hs]
      have e : |((filtered_reading fl m a b).low : Int) - ((filtered_reading fl m a b).high : Int)|
          = |((filtered_reading fl m a b).high : Int) - ((filtered_reading fl m a b).low : Int)| :=
        abs_sub_comm _ _
      rw [e]
    · have hrun2 : ¬ (m2.g_steering_control_state.enabled = true
          ∨ m2.g_steering_control_state.operator_override = true) := by rw [hs]; exact hrun
      rw [check_for_operator_override_closed fl cfg m a b hrun,
        check_for_operator_override_closed fl cfg m2 a2 b2 hrun2, hs]
  · intro hrun
    have hst := check_for_operator_override_state fl cfg m a b hrun
    have key : (check_for_operator_override fl cfg m a
        b).g_steering_control_state.operator_override = true
        ↔ |((filtered_reading fl m a b).high : Int) - ((filtered_reading fl m a b).low : Int)|
            > (cfg.TORQUE_DIFFERENCE_THRESHOLD : Int) := by
      rw [hst]
      split_ifs with hx <;> simp [hx]
    refine ⟨key, key.trans (habs _ _ _), fun hgt => ?_, fun hlt hle => ?_⟩
    · have hx := (habs (filtered_reading fl m a b).high (filtered_reading fl m a b).low
        cfg.TORQUE_DIFFERENCE_THRESHOLD).mpr (Or.inr hgt)
      rw [hst, if_pos hx]
      exact ⟨rfl, rfl⟩
    · have hx : ¬ |((filtered_reading fl m a b).high : Int)
          - ((filtered_reading fl m a b).low : Int)| > (cfg.TORQUE_DIFFERENCE_THRESHOLD : Int) := by
        rw [habs]
        omega
      rw [hst, if_neg hx]

theorem override_decision_symmetric_witness :
    (check_for_operator_override ratArith sample_config swapped_machine 25
          500).g_steering_control_state
        = (check_for_operator_override ratArith sample_config forced_machine 500
          25).g_steering_control_state
      ∧ (check_for_operator_override ratArith sample_config swapped_machine 25
          500).g_steering_control_state.operator_override = true :=
  have hf : filtered_reading ratArith forced_machine 500 25 = { high := 2000, low := 100 } := by
    norm_num [filtered_reading, read_torque_sensor, exponential_moving_average,
      ratArith, forced_machine, enabled_machine, initial, cli, sei, analogRead, emit,
      to_uint16, UINT16_MOD, Nat.shiftLeft_eq]; decide
  have hw : filtered_reading ratArith swapped_machine 25 500 = { high := 100, low := 2000 } := by
    norm_num [filtered_reading, read_torque_sensor, exponential_moving_average,
      ratArith, swapped_machine, enabled_machine, initial, cli, sei, analogRead, emit,
      to_uint16, UINT16_MOD, Nat.shiftLeft_eq]; decide
  ⟨(override_decision_symmetric ratArith sample_config forced_machine swapped_machine
      500 25 25 500 rfl (by rw [hf, hw]) (by rw [hf, hw])).1,
   ((override_decision_symmetric ratArith sample_config swapped_machine forced_machine
      25 500 500 25 rfl (by rw [hf, hw]) (by rw [hf, hw])).2 (Or.inl rfl)).2.2.1
      (by rw [hw]; decide) |>.1⟩

/-! ## Critical sections -/

theorem mask_scan_append (masked : Bool) (xs ys : List Event) :
    mask_scan masked (xs ++ ys) = ys.foldl mask_step (mask_scan masked xs) := by
  simp [mask_scan, List.foldl_append]

theorem well_masked_extend (m m2 : Machine F) (es : List Event) (h : well_masked m)
    (ht : m2.trace = m.trace ++ es) (hs : mask_scan false es = some false)
    (hi : m2.interrupts = true) : well_masked m2 := by
  refine ⟨?_, hi⟩
  rw [ht, mask_scan_append, h.1]
  exact hs

theorem well_masked_read_torque_sensor (fl : FloatArith F) (m : Machine F) (a b : Nat)
    (h : well_masked m) : well_masked (read_torque_sensor fl m a b).1 :=
  well_masked_extend m _ _ h (read_torque_sensor_trace fl m a b) rfl rfl

theorem well_masked_publish_fault_report (m : Machine F) (h : well_masked m) :
    well_masked (publish_fault_report m) :=
  well_masked_extend m _ [Event.publish_fault_report] h rfl rfl h.2

theorem well_masked_disable_control (m : Machine F) (h : well_masked m) :
    well_masked (disable_control m) := by
  by_cases he : m.g_steering_control_state.enabled = true
  · refine well_masked_extend m _
      [Event.prevent_signal_discontinuity 20 Pin.PIN_TORQUE_SENSOR_HIGH
         Pin.PIN_TORQUE_SENSOR_LOW, Event.cli,
       Event.digitalWrite Pin.PIN_SPOOF_ENABLE Level.LOW, Event.sei] h ?_ rfl ?_
    · simp [disable_control, he, sei, cli, digitalWrite, prevent_signal_discontinuity]
    · simp [disable_control, he, sei]
  · simpa [disable_control, he] using h

theorem well_masked_enable_control (m : Machine F) (h : well_masked m) :
    well_masked (enable_control m) := by
  by_cases he : m.g_steering_control_state.enabled = false
      ∧ m.g_steering_control_state.operator_override = false
  · refine well_masked_extend m _
      [Event.prevent_signal_discontinuity 20 Pin.PIN_TORQUE_SENSOR_HIGH
         Pin.PIN_TORQUE_SENSOR_LOW, Event.cli,
       Event.digitalWrite Pin.PIN_SPOOF_ENABLE Level.HIGH, Event.sei] h ?_ rfl ?_
    · simp [enable_control, he.1, he.2, sei, cli, digitalWrite, prevent_signal_discontinuity]
    · simp [enable_control, he.1, he.2, sei]
  · unfold enable_control
    rw [if_neg he]
    exact h

theorem well_masked_update_steering (cfg : Config) (m : Machine F) (hi lo : Nat)
    (h : well_masked m) : well_masked (update_steering cfg m hi lo) := by
  by_cases he : m.g_steering_control_state.enabled = true
  · refine well_masked_extend m _
      [Event.cli,
       Event.outputA (to_uint16 (constrain hi cfg.STEERING_SPOOF_HIGH_SIGNAL_RANGE_MIN
         cfg.STEERING_SPOOF_HIGH_SIGNAL_RANGE_MAX)),
       Event.outputB (to_uint16 (constrain lo cfg.STEERING_SPOOF_LOW_SIGNAL_RANGE_MIN
         cfg.STEERING_SPOOF_LOW_SIGNAL_RANGE_MAX)),
       Event.sei] h ?_ rfl ?_
    · simp [update_steering, he, sei, cli, outputA, outputB]
    · simp [update_steering, he, sei]
  · simpa [update_steering, he] using h

theorem well_masked_check_for_operator_override (fl : FloatArith F) (cfg : Config)
    (m : Machine F) (a b : Nat) (h : well_masked m) :
    well_masked (check_for_operator_override fl cfg m a b) := by
  unfold check_for_operator_override
  dsimp only
  split_ifs
  · exact well_masked_publish_fault_report _
      (well_masked_disable_control _ (well_masked_read_torque_sensor fl m a b h))
  · exact well_masked_read_torque_sensor fl m a b h
  · exact h

theorem well_masked_check_for_sensor_faults (fl : FloatArith F) (cfg : Config)
    (m : Machine F) (a b : Nat) (h : well_masked m) :
    well_masked (check_for_sensor_faults fl cfg m a b) := by
  have hr := well_masked_read_torque_sensor fl m a b h
  have hc : ∀ c : Int,
      well_masked { (read_torque_sensor fl m a b).1 with fault_count := c } := fun _ => hr
  unfold check_for_sensor_faults
  dsimp only
  split_ifs
  · exact well_masked_publish_fault_report _ (well_masked_disable_control _ (hc _))
  · exact hr
  · exact hr
  · exact h

theorem well_masked_step (fl : FloatArith F) (cfg : Config) (m : Machine F) (op : Op)
    (h : well_masked m) : well_masked (step fl cfg m op) := by
  cases op with
  | enable_control => exact well_masked_enable_control m h
  | disable_control => exact well_masked_disable_control m h
  | update_steering hi lo => exact well_masked_update_steering cfg m hi lo h
  | check_for_operator_override a b => exact well_masked_check_for_operator_override fl cfg m a b h
  | check_for_sensor_faults a b => exact well_masked_check_for_sensor_faults fl cfg m a b h

theorem well_masked_run (fl : FloatArith F) (cfg : Config) (m : Machine F) (ops : List Op)
    (h : well_masked m) : well_masked (run fl cfg m ops) := by
  induction ops generalizing m with
  | nil => exact h
  | cons op rest ih => exact ih _ (well_masked_step fl cfg m op h)

/-- C15: every hardware access happens inside one critical section.
`read_torque_sensor` performs exactly `cli`, the two analog reads, `sei`;
`enable_control` and `disable_control`, when they act, write the spoof-enable
line between a `cli` and the following `sei`; `update_steering`, when enabled,
performs exactly `cli`, `outputA`, `outputB`, `sei` with the two constrained
values.  From a state whose trace has no unmasked access and whose interrupts
are enabled (process start is one), every sequence of operations leaves a trace
in which no analog read, pin write or DAC write occurs outside a `cli`/`sei`
pair, and returns with interrupts enabled. -/
theorem accesses_inside_critical_sections (fl : FloatArith F) (cfg : Config) (m : Machine F)
    (a b hi lo : Nat) (ops : List Op) :
    (read_torque_sensor fl m a b).1.trace
        = m.trace ++ [Event.cli, Event.analogRead Pin.PIN_TORQUE_SENSOR_HIGH,
            Event.analogRead Pin.PIN_TORQUE_SENSOR_LOW, Event.sei]
      ∧ (m.g_steering_control_state.enabled = false
          → m.g_steering_control_state.operator_override = false
          → (enable_control m).trace
            = m.trace ++ [Event.prevent_signal_discontinuity 20 Pin.PIN_TORQUE_SENSOR_HIGH
                Pin.PIN_TORQUE_SENSOR_LOW, Event.cli,
                Event.digitalWrite Pin.PIN_SPOOF_ENABLE Level.HIGH, Event.sei])
      ∧ (m.g_steering_control_state.enabled = true
          → (disable_control m).trace
            = m.trace ++ [Event.prevent_signal_discontinuity 20 Pin.PIN_TORQUE_SENSOR_HIGH
                Pin.PIN_TORQUE_SENSOR_LOW, Event.cli,
                Event.digitalWrite Pin.PIN_SPOOF_ENABLE Level.LOW, Event.sei])
      ∧ (m.g_steering_control_state.enabled = true
          → (update_steering cfg m hi lo).trace
            = m.trace ++ [Event.cli,
                Event.outputA (to_uint16 (constrain hi cfg.STEERING_SPOOF_HIGH_SIGNAL_RANGE_MIN
                  cfg.STEERING_SPOOF_HIGH_SIGNAL_RANGE_MAX)),
                Event.outputB (to_uint16 (constrain lo cfg.STEERING_SPOOF_LOW_SIGNAL_RANGE_MIN
                  cfg.STEERING_SPOOF_LOW_SIGNAL_RANGE_MAX)),
                Event.sei])
      ∧ (well_masked m →
          mask_scan false (run fl cfg m ops).trace = some false
            ∧ (run fl cfg m ops).interrupts = true)
      ∧ mask_scan false (run fl cfg (initial fl) ops).trace = some false
      ∧ (run fl cfg (initial fl) ops).interrupts = true := by
  refine ⟨read_torque_sensor_trace fl m a b, fun h1 h2 => ?_, fun h1 => ?_, fun h1 => ?_,
    fun h => well_masked_run fl cfg m ops h, ?_⟩
  · simp [enable_control, h1, h2, sei, cli, digitalWrite, prevent_signal_discontinuity]
  · simp [disable_control, h1, sei, cli, digitalWrite, prevent_signal_discontinuity]
  · simp [update_steering, h1, sei, cli, outputA, outputB]
  · exact well_masked_run fl cfg (initial fl) ops ⟨rfl, rfl⟩

theorem accesses_inside_critical_sections_witness :
    (update_steering sample_config enabled_machine 4000 100).trace
        = [Event.cli, Event.outputA 3000, Event.outputB 500, Event.sei]
      ∧ mask_scan false (run ratArith sample_config enabled_machine
          [Op.update_steering 4000 100, Op.disable_control]).trace = some false :=
  ⟨(accesses_inside_critical_sections ratArith sample_config enabled_machine 0 0 4000 100
      []).2.2.2.1 rfl,
   ((accesses_inside_critical_sections ratArith sample_config enabled_machine 0 0 4000 100
      [Op.update_steering 4000 100, Op.disable_control]).2.2.2.2.1 ⟨rfl, rfl⟩).1⟩

/-- The scan is not vacuous: an access with no `cli` before it, or after the
closing `sei`, is rejected. -/
theorem mask_scan_rejects_unmasked_access :
    mask_scan false [Event.outputA 0] = none
      ∧ mask_scan false [Event.cli, Event.outputA 0, Event.sei, Event.outputB 0] = none
      ∧ mask_scan false [Event.cli, Event.outputA 0, Event.outputB 0, Event.sei] = some false :=
  ⟨rfl, rfl, rfl⟩

/-! ## The interrupt flag after a critical section -/

/-- C16 as stated fails: entered with interrupts already masked,
`read_torque_sensor` returns with interrupts enabled, and so does
`update_steering` when control is enabled. -/
theorem critical_section_unmasks_on_exit :
    masked_machine.interrupts = false
      ∧ (read_torque_sensor ratArith masked_machine 0 0).1.interrupts = true
      ∧ ({ enabled_machine with interrupts := false } : Machine ℚ).interrupts = false
      ∧ (update_steering sample_config
          ({ enabled_machine with interrupts := false } : Machine ℚ) 0 0).interrupts = true :=
  ⟨rfl, rfl, rfl, rfl⟩

/-- C16, amended: every critical section ends with interrupts enabled,
whatever the state on entry: after `read_torque_sensor`, after
`update_steering` and `disable_control` when control is enabled, and after
`enable_control` when it acts, the interrupt flag is set.  Hence, entered
with interrupts enabled, each of the four returns with the interrupt flag as
it was on entry. -/
theorem critical_section_exits_unmasked (fl : FloatArith F) (cfg : Config) (m : Machine F)
    (a b hi lo : Nat) :
    (read_torque_sensor fl m a b).1.interrupts = true
      ∧ (m.g_steering_control_state.enabled = true →
          (update_steering cfg m hi lo).interrupts = true
            ∧ (disable_control m).interrupts = true)
      ∧ (m.g_steering_control_state.enabled = false →
          m.g_steering_control_state.operator_override = false →
          (enable_control m).interrupts = true)
      ∧ (m.interrupts = true →
          (read_torque_sensor fl m a b).1.interrupts = m.interrupts
            ∧ (update_steering cfg m hi lo).interrupts = m.interrupts
            ∧ (enable_control m).interrupts = m.interrupts
            ∧ (disable_control m).interrupts = m.interrupts) := by
  refine ⟨rfl, fun h => ⟨?_, ?_⟩, fun h1 h2 => ?_, fun hi1 => ⟨?_, ?_, ?_, ?_⟩⟩
  · simp [update_steering, h, sei]
  · simp [disable_control, h, sei]
  · simp [enable_control, h1, h2, sei]
  · rw [hi1]; rfl
  · unfold update_steering
    split_ifs <;> simp [sei, hi1]
  · unfold enable_control
    split_ifs <;> simp [sei, hi1]
  · unfold disable_control
    split_ifs <;> simp [sei, hi1]

theorem critical_section_exits_unmasked_witness :
    (update_steering sample_config enabled_machine 4000 100).interrupts = true
      ∧ (disable_control enabled_machine).interrupts = true
      ∧ (enable_control (initial ratArith)).interrupts = true
      ∧ (read_torque_sensor ratArith enabled_machine 0 0).1.interrupts
          = enabled_machine.interrupts :=
  ⟨((critical_section_exits_unmasked ratArith sample_config enabled_machine 0 0 4000
      100).2.1 rfl).1,
   ((critical_section_exits_unmasked ratArith sample_config enabled_machine 0 0 4000
      100).2.1 rfl).2,
   (critical_section_exits_unmasked ratArith sample_config (initial ratArith) 0 0 4000
      100).2.2.1 rfl rfl,
   ((critical_section_exits_unmasked ratArith sample_config enabled_machine 0 0 4000
      100).2.2.2 rfl).1⟩

/-! ## Invariants of the reachable states -/

theorem enable_control_state (m : Machine F) :
    (enable_control m).g_steering_control_state
      = if m.g_steering_control_state.enabled = false
            ∧ m.g_steering_control_state.operator_override = false then
          { m.g_steering_control_state with enabled := true }
        else m.g_steering_control_state := by
  unfold enable_control
  split_ifs <;> simp [sei, cli, digitalWrite, prevent_signal_discontinuity]

theorem update_steering_state (cfg : Config) (m : Machine F) (h l : Nat) :
    (update_steering cfg m h l).g_steering_control_state = m.g_steering_control_state := by
  unfold update_steering
  split_ifs <;> simp [sei, cli, outputA, outputB]

theorem check_for_sensor_faults_operator_override (fl : FloatArith F) (cfg : Config)
    (m : Machine F) (a b : Nat) :
    (check_for_sensor_faults fl cfg m a b).g_steering_control_state.operator_override
      = m.g_steering_control_state.operator_override := by
  unfold check_for_sensor_faults
  dsimp only
  split_ifs <;> simp [publish_fault_report]

theorem check_for_sensor_faults_enabled (fl : FloatArith F) (cfg : Config)
    (m : Machine F) (a b : Nat) :
    (check_for_sensor_faults fl cfg m a b).g_steering_control_state.enabled
        = m.g_steering_control_state.enabled
      ∨ (check_for_sensor_faults fl cfg m a b).g_steering_control_state.enabled = false := by
  unfold check_for_sensor_faults
  dsimp only
  split_ifs <;> simp [publish_fault_report]

/-- One call keeps "override flagged implies control disabled". -/
theorem step_keeps_override_exclusion (fl : FloatArith F) (cfg : Config) (m : Machine F)
    (op : Op)
    (h : m.g_steering_control_state.operator_override = true
      → m.g_steering_control_state.enabled = false) :
    (step fl cfg m op).g_steering_control_state.operator_override = true
      → (step fl cfg m op).g_steering_control_state.enabled = false := by
  cases op with
  | enable_control =>
    simp only [step, enable_control_state]
    split_ifs with hc
    · intro ho
      simp only at ho
      rw [hc.2] at ho
      exact Bool.noConfusion ho
    · exact h
  | disable_control =>
    simp only [step]
    intro _
    exact disable_control_enabled m
  | update_steering hi lo =>
    simp only [step, update_steering_state]
    exact h
  | check_for_operator_override a b =>
    simp only [step]
    by_cases hrun : m.g_steering_control_state.enabled = true
        ∨ m.g_steering_control_state.operator_override = true
    · rw [check_for_operator_override_state fl cfg m a b hrun]
      split_ifs
      · intro _; rfl
      · intro ho; simp at ho
    · rw [check_for_operator_override_closed fl cfg m a b hrun]
      exact h
  | check_for_sensor_faults a b =>
    simp only [step]
    intro ho
    rw [check_for_sensor_faults_operator_override] at ho
    rcases check_for_sensor_faults_enabled fl cfg m a b with he | he
    · rw [he]; exact h ho
    · exact he

/-- C17: in every state reachable from process start by any sequence of the
five operations, with any samples and commands, `operator_override = true`
implies `enabled = false`. -/
theorem override_excludes_enabled (fl : FloatArith F) (cfg : Config) (ops : List Op) :
    (run fl cfg (initial fl) ops).g_steering_control_state.operator_override = true
      → (run fl cfg (initial fl) ops).g_steering_control_state.enabled = false := by
  induction ops using List.reverseRecOn with
  | nil => intro _; rfl
  | append_singleton ops op ih =>
    rw [run_snoc]
    exact step_keeps_override_exclusion fl cfg _ op ih

theorem override_excludes_enabled_witness :
    (run ratArith sensitive_config (initial ratArith)
        [Op.enable_control,
         Op.check_for_operator_override 25 0]).g_steering_control_state.operator_override
        = true
      ∧ (run ratArith sensitive_config (initial ratArith)
        [Op.enable_control,
         Op.check_for_operator_override 25 0]).g_steering_control_state.enabled = false :=
  have h : (run ratArith sensitive_config (initial ratArith)
      [Op.enable_control,
       Op.check_for_operator_override 25 0]).g_steering_control_state.operator_override
      = true := by
    norm_num [run, step, check_for_operator_override, read_torque_sensor,
      exponential_moving_average, ratArith, enable_control, disable_control, initial,
      prevent_signal_discontinuity, publish_fault_report, digitalWrite, cli, sei, analogRead,
      emit, to_uint16, sensitive_config, sample_config, UINT16_MOD, Nat.shiftLeft_eq]
  ⟨h, override_excludes_enabled ratArith sensitive_config
    [Op.enable_control, Op.check_for_operator_override 25 0] h⟩

theorem check_for_operator_override_spoof_enable (fl : FloatArith F) (cfg : Config)
    (m : Machine F) (a b : Nat) :
    (check_for_operator_override fl cfg m a b).spoof_enable = m.spoof_enable
        ∧ (check_for_operator_override fl cfg m a b).g_steering_control_state.enabled
          = m.g_steering_control_state.enabled
      ∨ (check_for_operator_override fl cfg m a b).spoof_enable
          = (disable_control (read_torque_sensor fl m a b).1).spoof_enable
        ∧ (check_for_operator_override fl cfg m a b).g_steering_control_state.enabled
          = (disable_control (read_torque_sensor fl m a b).1).g_steering_control_state.enabled := by
  unfold check_for_operator_override
  dsimp only
  split_ifs <;> simp [publish_fault_report]

theorem check_for_sensor_faults_spoof_enable (fl : FloatArith F) (cfg : Config)
    (m : Machine F) (a b : Nat) :
    (check_for_sensor_faults fl cfg m a b).spoof_enable = m.spoof_enable
        ∧ (check_for_sensor_faults fl cfg m a b).g_steering_control_state.enabled
          = m.g_steering_control_state.enabled
      ∨ (check_for_sensor_faults fl cfg m a b).spoof_enable
          = (disable_control { (read_torque_sensor fl m a b).1 with
              fault_count := to_int16 (m.fault_count + 1) }).spoof_enable
        ∧ (check_for_sensor_faults fl cfg m a b).g_steering_control_state.enabled
          = (disable_control { (read_torque_sensor fl m a b).1 with
              fault_count := to_int16 (m.fault_count + 1) }).g_steering_control_state.enabled := by
  unfold check_for_sensor_faults
  dsimp only
  split_ifs <;> simp [publish_fault_report]

/-- The spoof-enable line follows the enabled flag across `disable_control`. -/
theorem disable_control_line (m : Machine F)
    (h : m.spoof_enable = Level.HIGH ↔ m.g_steering_control_state.enabled = true) :
    ((disable_control m).spoof_enable = Level.HIGH
      ↔ (disable_control m).g_steering_control_state.enabled = true) := by
  by_cases he : m.g_steering_control_state.enabled = true
  · simp [disable_control, he, sei, cli, digitalWrite]
  · simpa [disable_control, he] using h

theorem enable_control_line (m : Machine F)
    (h : m.spoof_enable = Level.HIGH ↔ m.g_steering_control_state.enabled = true) :
    ((enable_control m).spoof_enable = Level.HIGH
      ↔ (enable_control m).g_steering_control_state.enabled = true) := by
  by_cases he : m.g_steering_control_state.enabled = false
      ∧ m.g_steering_control_state.operator_override = false
  · simp [enable_control, he.1, he.2, sei, cli, digitalWrite]
  · unfold enable_control
    rw [if_neg he]
    exact h

theorem update_steering_line (cfg : Config) (m : Machine F) (hi lo : Nat) :
    (update_steering cfg m hi lo).spoof_enable = m.spoof_enable := by
  unfold update_steering
  split_ifs <;> simp [sei, cli, outputA, outputB]

theorem line_follows_enabled_step (fl : FloatArith F) (cfg : Config) (m : Machine F) (op : Op)
    (h : m.spoof_enable = Level.HIGH ↔ m.g_steering_control_state.enabled = true) :
    ((step fl cfg m op).spoof_enable = Level.HIGH
      ↔ (step fl cfg m op).g_steering_control_state.enabled = true) := by
  cases op with
  | enable_control => exact enable_control_line m h
  | disable_control => exact disable_control_line m h
  | update_steering hi lo =>
    simp only [step, update_steering_line, update_steering_state]
    exact h
  | check_for_operator_override a b =>
    simp only [step]
    rcases check_for_operator_override_spoof_enable fl cfg m a b with ⟨h1, h2⟩ | ⟨h1, h2⟩
    · rw [h1, h2]; exact h
    · rw [h1, h2]
      exact disable_control_line _ h
  | check_for_sensor_faults a b =>
    simp only [step]
    rcases check_for_sensor_faults_spoof_enable fl cfg m a b with ⟨h1, h2⟩ | ⟨h1, h2⟩
    · rw [h1, h2]; exact h
    · rw [h1, h2]
      exact disable_control_line _ h

/-- C18: in every state reachable from process start by any sequence of the
five operations, the level last written to the spoof-enable line is `HIGH`
exactly when the enabled flag is true; so a call of `update_steering` that
adds anything to the trace (its DAC writes) is made with the line asserted. -/
theorem enable_line_follows_enabled (fl : FloatArith F) (cfg : Config) (ops : List Op)
    (hi lo : Nat) :
    ((run fl cfg (initial fl) ops).spoof_enable = Level.HIGH
        ↔ (run fl cfg (initial fl) ops).g_steering_control_state.enabled = true)
      ∧ ((update_steering cfg (run fl cfg (initial fl) ops) hi lo).trace
            ≠ (run fl cfg (initial fl) ops).trace
          → (run fl cfg (initial fl) ops).spoof_enable = Level.HIGH) := by
  have inv : (run fl cfg (initial fl) ops).spoof_enable = Level.HIGH
      ↔ (run fl cfg (initial fl) ops).g_steering_control_state.enabled = true := by
    induction ops using List.reverseRecOn with
    | nil => simp [run_nil, initial]
    | append_singleton ops op ih =>
      rw [run_snoc]
      exact line_follows_enabled_step fl cfg _ op ih
  refine ⟨inv, fun hne => ?_⟩
  by_contra hlow
  have hd : ¬ (run fl cfg (initial fl) ops).g_steering_control_state.enabled = true :=
    fun he => hlow (inv.mpr he)
  apply hne
  unfold update_steering
  rw [if_neg hd]

theorem enable_line_follows_enabled_witness :
    (update_steering sample_config
        (run ratArith sample_config (initial ratArith) [Op.enable_control]) 4000 100).trace
        ≠ (run ratArith sample_config (initial ratArith) [Op.enable_control]).trace
      ∧ (run ratArith sample_config (initial ratArith) [Op.enable_control]).spoof_enable
        = Level.HIGH :=
  have h : (update_steering sample_config
      (run ratArith sample_config (initial ratArith) [Op.enable_control]) 4000 100).trace
      ≠ (run ratArith sample_config (initial ratArith) [Op.enable_control]).trace := by
    simp [run, step, update_steering, enable_control, initial, prevent_signal_discontinuity,
      digitalWrite, cli, sei, outputA, outputB, emit]
  ⟨h, (enable_line_follows_enabled ratArith sample_config [Op.enable_control] 4000 100).2 h⟩

/-! ## The fault counter at the end of its range -/

theorem to_int16_add (x y : Int) : to_int16 (to_int16 x + y) = to_int16 (x + y) := by
  unfold to_int16
  omega

theorem rat_zero_reading (m : Machine ℚ) (hH : m.filtered_torque_high = 0)
    (hL : m.filtered_torque_low = 0) :
    filtered_reading ratArith m 0 0 = { high := 0, low := 0 }
      ∧ (read_torque_sensor ratArith m 0 0).1.filtered_torque_high = 0
      ∧ (read_torque_sensor ratArith m 0 0).1.filtered_torque_low = 0 := by
  simp [filtered_reading, read_torque_sensor, exponential_moving_average, ratArith, cli, sei,
    analogRead, emit, to_uint16, hH, hL]

theorem disable_control_accumulators (m : Machine F) :
    (disable_control m).filtered_torque_high = m.filtered_torque_high
      ∧ (disable_control m).filtered_torque_low = m.filtered_torque_low := by
  unfold disable_control
  split_ifs <;> simp [sei, cli, digitalWrite, prevent_signal_discontinuity, emit]

theorem enable_control_frame (m : Machine F) :
    (enable_control m).filtered_torque_high = m.filtered_torque_high
      ∧ (enable_control m).filtered_torque_low = m.filtered_torque_low
      ∧ (enable_control m).g_steering_control_state.dtcs = m.g_steering_control_state.dtcs := by
  unfold enable_control
  split_ifs <;> simp [sei, cli, digitalWrite, prevent_signal_discontinuity, emit]

/-- One zero-reading cycle of the monitor in exact arithmetic, with the
accumulators at zero and the invalid-sensor bit latched: the accumulators
stay at zero, the bit stays latched, the counter is incremented in 16 bits,
and a disabled control stays disabled. -/
theorem latched_zero_cycle (cfg : Config) (m : Machine ℚ)
    (hH : m.filtered_torque_high = 0) (hL : m.filtered_torque_low = 0)
    (hl : DTC_CHECK m.g_steering_control_state.dtcs
      cfg.OSCC_STEERING_DTC_INVALID_SENSOR_VAL = true) :
    (check_for_sensor_faults ratArith cfg m 0 0).filtered_torque_high = 0
      ∧ (check_for_sensor_faults ratArith cfg m 0 0).filtered_torque_low = 0
      ∧ DTC_CHECK (check_for_sensor_faults ratArith cfg m 0 0).g_steering_control_state.dtcs
          cfg.OSCC_STEERING_DTC_INVALID_SENSOR_VAL = true
      ∧ (check_for_sensor_faults ratArith cfg m 0 0).fault_count = to_int16 (m.fault_count + 1)
      ∧ (m.g_steering_control_state.enabled = false →
          (check_for_sensor_faults ratArith cfg m 0 0).g_steering_control_state.enabled
            = false)
      ∧ (check_for_sensor_faults ratArith cfg m 0 0).g_steering_control_state.operator_override
          = m.g_steering_control_state.operator_override := by
  obtain ⟨hr, hrH, hrL⟩ := rat_zero_reading m hH hL
  have hz : (read_torque_sensor ratArith m 0 0).2.high = 0
      ∨ (read_torque_sensor ratArith m 0 0).2.low = 0 := by
    left
    have : (filtered_reading ratArith m 0 0).high = 0 := by rw [hr]
    exact this
  have hrun : m.g_steering_control_state.enabled = true
      ∨ DTC_CHECK m.g_steering_control_state.dtcs
          cfg.OSCC_STEERING_DTC_INVALID_SENSOR_VAL = true := Or.inr hl
  unfold check_for_sensor_faults
  rw [if_pos hrun]
  dsimp only
  rw [if_pos hz]
  split_ifs with hc
  · refine ⟨?_, ?_, DTC_CHECK_SET_same _ _, ?_, fun _ => ?_, ?_⟩
    · simp only [publish_fault_report, emit]
      rw [(disable_control_accumulators _).1]
      exact hrH
    · simp only [publish_fault_report, emit]
      rw [(disable_control_accumulators _).2]
      exact hrL
    · simp [publish_fault_report]
    · simp [publish_fault_report]
    · simp [publish_fault_report]
  · exact ⟨hrH, hrL, hl, rfl, fun h => h, rfl⟩

theorem latched_zero_cycles (cfg : Config) (k : Nat) (m : Machine ℚ)
    (hH : m.filtered_torque_high = 0) (hL : m.filtered_torque_low = 0)
    (hl : DTC_CHECK m.g_steering_control_state.dtcs
      cfg.OSCC_STEERING_DTC_INVALID_SENSOR_VAL = true)
    (hc : to_int16 m.fault_count = m.fault_count) :
    (run ratArith cfg m (List.replicate k (Op.check_for_sensor_faults 0 0))).filtered_torque_high
        = 0
      ∧ (run ratArith cfg m
          (List.replicate k (Op.check_for_sensor_faults 0 0))).filtered_torque_low = 0
      ∧ DTC_CHECK (run ratArith cfg m
          (List.replicate k (Op.check_for_sensor_faults 0 0))).g_steering_control_state.dtcs
          cfg.OSCC_STEERING_DTC_INVALID_SENSOR_VAL = true
      ∧ (run ratArith cfg m (List.replicate k (Op.check_for_sensor_faults 0 0))).fault_count
          = to_int16 (m.fault_count + k)
      ∧ (m.g_steering_control_state.enabled = false →
          (run ratArith cfg m
            (List.replicate k (Op.check_for_sensor_faults 0 0))).g_steering_control_state.enabled
            = false)
      ∧ (run ratArith cfg m (List.replicate k
            (Op.check_for_sensor_faults 0 0))).g_steering_control_state.operator_override
          = m.g_steering_control_state.operator_override := by
  induction k generalizing m with
  | zero =>
    simp only [List.replicate_zero, run_nil]
    refine ⟨hH, hL, hl, ?_, fun h => h, trivial⟩
    simp [hc]
  | succ j ih =>
    obtain ⟨s1, s2, s3, s4, s5, s6⟩ := latched_zero_cycle cfg m hH hL hl
    have hc2 : to_int16 (check_for_sensor_faults ratArith cfg m 0 0).fault_count
        = (check_for_sensor_faults ratArith cfg m 0 0).fault_count := by
      rw [s4]
      unfold to_int16
      omega
    obtain ⟨r1, r2, r3, r4, r5, r6⟩ :=
      ih (check_for_sensor_faults ratArith cfg m 0 0) s1 s2 s3 hc2
    simp only [List.replicate_succ, run_cons, step]
    refine ⟨r1, r2, r3, ?_, fun h => r5 (s5 h), r6.trans s6⟩
    rw [r4, s4, to_int16_add]
    push_cast
    ring_nf

theorem latched_machine_facts :
    latched_machine.g_steering_control_state
        = { enabled := false, operator_override := false, dtcs := 1 }
      ∧ latched_machine.fault_count = 4
      ∧ latched_machine.filtered_torque_high = 0
      ∧ latched_machine.filtered_torque_low = 0 := by
  simp [latched_machine, sensor_fault_cycles, check_for_sensor_faults, read_torque_sensor,
    exponential_moving_average, ratArith, enable_control, disable_control, initial,
    prevent_signal_discontinuity, publish_fault_report, digitalWrite, cli, sei, analogRead,
    emit, to_uint16, to_int16, SENSOR_VALIDITY_CHECK_FAULT_COUNT, DTC_SET, DTC_CHECK,
    sample_config]

theorem latched_machine_run :
    run ratArith sample_config (initial ratArith)
        (Op.enable_control :: List.replicate 4 (Op.check_for_sensor_faults 0 0))
      = latched_machine := rfl

/-- C19 fails on the code: with `fault_count` a 16-bit `int`, the execution
`overflow_ops` (enable, then 32768 zero-reading cycles) ends with
`fault_count = -32768` while the invalid-sensor bit is latched; and after
`saturated_ops` control is enabled with `fault_count = 32767`, yet a further
zero-reading cycle of `check_for_sensor_faults` wraps the counter to `-32768`
and leaves control enabled. -/
theorem fault_count_overflows :
    (run ratArith sample_config (initial ratArith) overflow_ops).fault_count = -32768
      ∧ DTC_CHECK (run ratArith sample_config (initial ratArith)
          overflow_ops).g_steering_control_state.dtcs
          sample_config.OSCC_STEERING_DTC_INVALID_SENSOR_VAL = true
      ∧ (run ratArith sample_config (initial ratArith)
          saturated_ops).g_steering_control_state.enabled = true
      ∧ (run ratArith sample_config (initial ratArith) saturated_ops).fault_count = 32767
      ∧ zero_channel (filtered_reading ratArith
          (run ratArith sample_config (initial ratArith) saturated_ops) 0 0)
      ∧ (check_for_sensor_faults ratArith sample_config
          (run ratArith sample_config (initial ratArith) saturated_ops)
          0 0).g_steering_control_state.enabled = true
      ∧ (check_for_sensor_faults ratArith sample_config
          (run ratArith sample_config (initial ratArith) saturated_ops)
          0 0).fault_count = -32768 := by
  obtain ⟨ls, lc, lh, ll⟩ := latched_machine_facts
  have hlat : DTC_CHECK latched_machine.g_steering_control_state.dtcs
      sample_config.OSCC_STEERING_DTC_INVALID_SENSOR_VAL = true := by
    rw [ls]; decide
  have hc : to_int16 latched_machine.fault_count = latched_machine.fault_count := by
    rw [lc]; decide
  have e1 : overflow_ops
      = (Op.enable_control :: List.replicate 4 (Op.check_for_sensor_faults 0 0))
        ++ List.replicate 32764 (Op.check_for_sensor_faults 0 0) := by
    unfold overflow_ops
    rw [List.cons_append, ← List.replicate_add]
  have e2 : saturated_ops
      = ((Op.enable_control :: List.replicate 4 (Op.check_for_sensor_faults 0 0))
        ++ List.replicate 32763 (Op.check_for_sensor_faults 0 0)) ++ [Op.enable_control] := by
    have r : List.replicate 32767 (Op.check_for_sensor_faults 0 0)
        = List.replicate 4 (Op.check_for_sensor_faults 0 0)
          ++ List.replicate 32763 (Op.check_for_sensor_faults 0 0) := by
      rw [← List.replicate_add]
    unfold saturated_ops
    rw [r]
    simp only [List.cons_append, List.append_assoc]
  obtain ⟨-, -, o3, o4, -, -⟩ :=
    latched_zero_cycles sample_config 32764 latched_machine lh ll hlat hc
  obtain ⟨p1, p2, p3, p4, p5, p6⟩ :=
    latched_zero_cycles sample_config 32763 latched_machine lh ll hlat hc
  rw [lc] at o4 p4
  have w1 : to_int16 ((4 : Int) + (32764 : Nat)) = -32768 := by decide
  have w2 : to_int16 ((4 : Int) + (32763 : Nat)) = 32767 := by decide
  have w3 : to_int16 ((32767 : Int) + 1) = -32768 := by decide
  rw [w1] at o4
  rw [w2] at p4
  have pdis := p5 (by rw [ls])
  rw [ls] at p6
  rw [e1, run_append, latched_machine_run, e2, run_snoc, run_append, latched_machine_run]
  simp only [step]
  have hen : (enable_control (run ratArith sample_config latched_machine
      (List.replicate 32763 (Op.check_for_sensor_faults 0 0)))).g_steering_control_state.enabled
      = true := by
    rw [enable_control_state, if_pos ⟨pdis, p6⟩]
  have hcount : (enable_control (run ratArith sample_config latched_machine
      (List.replicate 32763 (Op.check_for_sensor_faults 0 0)))).fault_count = 32767 := by
    rw [enable_control_fault_count, p4]
  obtain ⟨f1, f2, -⟩ := enable_control_frame (run ratArith sample_config latched_machine
    (List.replicate 32763 (Op.check_for_sensor_faults 0 0)))
  obtain ⟨hr, -, -⟩ := rat_zero_reading _ (f1.trans p1) (f2.trans p2)
  have hz : zero_channel (filtered_reading ratArith (enable_control
      (run ratArith sample_config latched_machine
        (List.replicate 32763 (Op.check_for_sensor_faults 0 0)))) 0 0) := by
    rw [hr]; decide
  obtain ⟨c1, c2, -⟩ := check_for_sensor_faults_zero ratArith sample_config _ 0 0
    (Or.inl hen) hz
  rw [hcount, w3] at c1 c2
  obtain ⟨c3, -⟩ := c2 (by decide)
  exact ⟨o4, o3, hen, hcount, hz, by rw [c3]; exact hen, c1⟩

/-! ## The log and the trace agree -/

theorem logged_actions_emit (m : Machine F) (e : Event)
    (h : logged_actions m.log = m.trace) :
    logged_actions (emit m e).log = (emit m e).trace := by
  simp [logged_actions, List.filterMap_append] at h ⊢
  exact h

theorem logged_actions_store_enabled (m : Machine F) (value : Bool)
    (h : logged_actions m.log = m.trace) :
    logged_actions (store_enabled m value).log = (store_enabled m value).trace := by
  simp [logged_actions, List.filterMap_append] at h ⊢
  exact h

theorem logged_actions_read_torque_sensor (fl : FloatArith F) (m : Machine F) (a b : Nat)
    (h : logged_actions m.log = m.trace) :
    logged_actions (read_torque_sensor fl m a b).1.log = (read_torque_sensor fl m a b).1.trace :=
  logged_actions_emit _ _ (logged_actions_emit _ _ (logged_actions_emit _ _
    (logged_actions_emit _ _ h)))

theorem logged_actions_disable_control (m : Machine F)
    (h : logged_actions m.log = m.trace) :
    logged_actions (disable_control m).log = (disable_control m).trace := by
  unfold disable_control
  split_ifs
  · exact logged_actions_store_enabled _ _ (logged_actions_emit _ _ (logged_actions_emit _ _
      (logged_actions_emit _ _ (logged_actions_emit _ _ h))))
  · exact h

theorem logged_actions_enable_control (m : Machine F)
    (h : logged_actions m.log = m.trace) :
    logged_actions (enable_control m).log = (enable_control m).trace := by
  unfold enable_control
  split_ifs
  · exact logged_actions_store_enabled _ _ (logged_actions_emit _ _ (logged_actions_emit _ _
      (logged_actions_emit _ _ (logged_actions_emit _ _ h))))
  · exact h

theorem logged_actions_update_steering (cfg : Config) (m : Machine F) (hi lo : Nat)
    (h : logged_actions m.log = m.trace) :
    logged_actions (update_steering cfg m hi lo).log = (update_steering cfg m hi lo).trace := by
  unfold update_steering
  split_ifs
  · exact logged_actions_emit _ _ (logged_actions_emit _ _ (logged_actions_emit _ _
      (logged_actions_emit _ _ h)))
  · exact h

theorem logged_actions_check_for_operator_override (fl : FloatArith F) (cfg : Config)
    (m : Machine F) (a b : Nat) (h : logged_actions m.log = m.trace) :
    logged_actions (check_for_operator_override fl cfg m a b).log
      = (check_for_operator_override fl cfg m a b).trace := by
  have hr := logged_actions_read_torque_sensor fl m a b h
  unfold check_for_operator_override
  dsimp only
  split_ifs
  · exact logged_actions_emit _ _ (logged_actions_disable_control _ hr)
  · exact hr
  · exact h

theorem logged_actions_check_for_sensor_faults (fl : FloatArith F) (cfg : Config)
    (m : Machine F) (a b : Nat) (h : logged_actions m.log = m.trace) :
    logged_actions (check_for_sensor_faults fl cfg m a b).log
      = (check_for_sensor_faults fl cfg m a b).trace := by
  have hr := logged_actions_read_torque_sensor fl m a b h
  have hc : ∀ c : Int,
      logged_actions ({ (read_torque_sensor fl m a b).1 with fault_count := c }).log
        = ({ (read_torque_sensor fl m a b).1 with fault_count := c }).trace := fun _ => hr
  unfold check_for_sensor_faults
  dsimp only
  split_ifs
  · exact logged_actions_emit _ _ (logged_actions_disable_control _ (hc _))
  · exact hr
  · exact hr
  · exact h

/-- In every state reachable from process start the hardware trace is the log
with the stores to `enabled` left out. -/
theorem logged_actions_run (fl : FloatArith F) (cfg : Config) (ops : List Op) :
    logged_actions (run fl cfg (initial fl) ops).log = (run fl cfg (initial fl) ops).trace := by
  induction ops using List.reverseRecOn with
  | nil => rfl
  | append_singleton ops op ih =>
    rw [run_snoc]
    cases op with
    | enable_control => exact logged_actions_enable_control _ ih
    | disable_control => exact logged_actions_disable_control _ ih
    | update_steering hi lo => exact logged_actions_update_steering cfg _ hi lo ih
    | check_for_operator_override a b =>
      exact logged_actions_check_for_operator_override fl cfg _ a b ih
    | check_for_sensor_faults a b =>
      exact logged_actions_check_for_sensor_faults fl cfg _ a b ih

end SteeringControl
